import Mathlib

/-!
# Electronic shop backend: store model and request handlers

A shallow embedding of the Go handlers of the electronic-shop backend
(`internal/models`, `internal/dto`, `internal/middleware`, `internal/handlers`).

Modelling conventions.

* The relational database is a record of four tables, each a list of rows.
  Queries are total lookups over these lists; a write statement either takes
  effect or fails, according to a `Faults` record supplied with each call
  (the database or driver refusing a statement).
* `uuid.UUID` values are natural numbers; `uuid.New()` is an identifier handed
  to the handler by its caller; `uuid.Parse` is a function handed to the model.
* `time.Time` is an integer count of nanoseconds; "now" is handed to the handler.
* `float64` prices and amounts are rationals: the handlers only copy them and
  compare them with zero.
* Go `int` stock and quantity values are integers; the only arithmetic on them
  (`Stock - Quantity` under the guard `Stock >= Quantity > 0`) cannot overflow.
-/

namespace ElectronicShop

/-! ## Data model (`internal/models/models.go`) -/

/-- Identifier type standing for `uuid.UUID`. -/
abbrev UUID := Nat

/-- Instants standing for `time.Time`, in nanoseconds since the Unix epoch. -/
abbrev Time := Int

/-- Row of the `shops` table (`models.Shop`). -/
structure Shop where
  ID : UUID
  Name : String
  Active : Bool
  WhatsAppNumber : String
  CreatedAt : Time
deriving DecidableEq, Repr

/-- Row of the `users` table (`models.User`). -/
structure User where
  ID : UUID
  Name : String
  Email : String
  Password : String
  Role : String
  ShopID : UUID
  CreatedAt : Time
deriving DecidableEq, Repr

/-- Row of the `products` table (`models.Product`); `DeletedAt` is the soft-delete tombstone. -/
structure Product where
  ID : UUID
  Name : String
  Description : String
  Category : String
  PurchasePrice : Rat
  SellingPrice : Rat
  Stock : Int
  ImageURL : String
  ShopID : UUID
  CreatedAt : Time
  DeletedAt : Option Time
deriving DecidableEq, Repr

/-- Row of the `transactions` table (`models.Transaction`), without the preloaded `Product`. -/
structure Transaction where
  ID : UUID
  Type_ : String
  ProductID : Option UUID
  Quantity : Int
  Amount : Rat
  Comment : String
  ShopID : UUID
  CreatedAt : Time
deriving DecidableEq, Repr

/-- The persistent store: the four tables. -/
structure Store where
  shops : List Shop
  users : List User
  products : List Product
  transactions : List Transaction
deriving DecidableEq, Repr

/-- Write statements that the database refuses during one handler call. -/
structure Faults where
  createProduct : Bool
  updateProduct : Bool
  deleteProduct : Bool
  updateStock : Bool
  createTransaction : Bool
  commit : Bool
  createShop : Bool
  createUser : Bool
deriving DecidableEq, Repr

/-- The fault-free database: every write statement takes effect. -/
def Faults.none : Faults :=
  { createProduct := false, updateProduct := false, deleteProduct := false,
    updateStock := false, createTransaction := false, commit := false,
    createShop := false, createUser := false }

/-! ## Request context (`gin.Context` keys set by the middleware) -/

/-- The keys `userID`, `shopID`, `role`, `email` of the request-scoped bag; `none` is an absent key. -/
structure Context where
  userID : Option UUID
  shopID : Option UUID
  role : Option String
  email : Option String
deriving DecidableEq, Repr

/-- The context of a request on which no middleware has run. -/
def Context.empty : Context :=
  { userID := none, shopID := none, role := none, email := none }

/-- Go `GetShopIDFromContext`: the stored shop id and whether it is present. -/
def GetShopIDFromContext (c : Context) : UUID × Bool :=
  match c.shopID with
  | some id => (id, true)
  | none => (0, false)

/-- Go `GetUserIDFromContext`: the stored user id and whether it is present. -/
def GetUserIDFromContext (c : Context) : UUID × Bool :=
  match c.userID with
  | some id => (id, true)
  | none => (0, false)

/-- Go `GetRoleFromContext`: the stored role, or the empty string. -/
def GetRoleFromContext (c : Context) : String :=
  match c.role with
  | some r => r
  | none => ""

/-! ## DTOs (`internal/dto/dto.go`) -/

/-- Go `dto.CreateProductRequest`. -/
structure CreateProductRequest where
  Name : String
  Description : String
  Category : String
  PurchasePrice : Rat
  SellingPrice : Rat
  Stock : Int
  ImageURL : String
deriving DecidableEq, Repr

/-- Binding tags of `CreateProductRequest`: `name` required,min=1; both prices required,gt=0;
`stock` min=0. -/
def CreateProductRequest.binding (r : CreateProductRequest) : Bool :=
  decide (r.Name ≠ "") && decide (0 < r.PurchasePrice) && decide (0 < r.SellingPrice)
    && decide (0 ≤ r.Stock)

/-- Go `dto.UpdateProductRequest` (no binding tags). -/
structure UpdateProductRequest where
  Name : String
  Description : String
  Category : String
  PurchasePrice : Rat
  SellingPrice : Rat
  Stock : Int
  ImageURL : String
deriving DecidableEq, Repr

/-- Go `dto.PrivateProductResponse`. -/
structure PrivateProductResponse where
  ID : UUID
  Name : String
  Description : String
  Category : String
  PurchasePrice : Rat
  SellingPrice : Rat
  Stock : Int
  ImageURL : String
  ShopID : UUID
deriving DecidableEq, Repr

/-- Go `dto.CreateTransactionRequest`. The handler also reads `req.Comment`, a field the
struct declaration does not list; it is carried here as a further field. -/
structure CreateTransactionRequest where
  Type_ : String
  ProductID : Option UUID
  Quantity : Int
  Amount : Rat
  Comment : String
deriving DecidableEq, Repr

/-- Binding tags of `CreateTransactionRequest`: `type` required,oneof=Sale Expense Withdrawal;
`quantity` min=0; `amount` required,gt=0. -/
def CreateTransactionRequest.binding (r : CreateTransactionRequest) : Bool :=
  (decide (r.Type_ = "Sale") || decide (r.Type_ = "Expense") || decide (r.Type_ = "Withdrawal"))
    && decide (0 ≤ r.Quantity) && decide (0 < r.Amount)

/-- Go `c.ShouldBindJSON(&req)`: `none` is a body that does not decode into the struct;
a decoded struct is then checked against its binding tags. The handlers answer a failed
binding with status 400 and the binder's own error text, for which the fixed text
`invalid request body` stands. -/
def ShouldBindJSON {R : Type} (binding : R → Bool) (body : Option R) : Option R :=
  match body with
  | none => none
  | some r => if binding r then some r else none

/-- Go `dto.RegisterRequest`. -/
structure RegisterRequest where
  Name : String
  Email : String
  Password : String
  Role : String
  ShopName : String
  WhatsAppNumber : String
  ShopID : String
deriving DecidableEq, Repr

/-- Binding tags of `RegisterRequest`: `name` required,min=2; `email` required,email;
`password` required,min=6; `role` required,oneof=SuperAdmin Admin. `validEmail` stands for
the validator's `email` rule; `min` on a string counts its characters. -/
def RegisterRequest.binding (validEmail : String → Bool) (r : RegisterRequest) : Bool :=
  decide (2 ≤ r.Name.length) && (decide (r.Email ≠ "") && validEmail r.Email)
    && decide (6 ≤ r.Password.length)
    && (decide (r.Role = "SuperAdmin") || decide (r.Role = "Admin"))

/-- Go `dto.LoginRequest`. -/
structure LoginRequest where
  Email : String
  Password : String
deriving DecidableEq, Repr

/-- Binding tags of `LoginRequest`: `email` required,email; `password` required. -/
def LoginRequest.binding (validEmail : String → Bool) (r : LoginRequest) : Bool :=
  (decide (r.Email ≠ "") && validEmail r.Email) && decide (r.Password ≠ "")

/-- Go `dto.CreateUserRequest`. -/
structure CreateUserRequest where
  Name : String
  Email : String
  Password : String
  Role : String
deriving DecidableEq, Repr

/-- Binding tags of `CreateUserRequest`, the same rules as for registration. -/
def CreateUserRequest.binding (validEmail : String → Bool) (r : CreateUserRequest) : Bool :=
  decide (2 ≤ r.Name.length) && (decide (r.Email ≠ "") && validEmail r.Email)
    && decide (6 ≤ r.Password.length)
    && (decide (r.Role = "SuperAdmin") || decide (r.Role = "Admin"))

/-- Go `dto.UserResponse`. -/
structure UserResponse where
  ID : UUID
  Name : String
  Email : String
  Role : String
  ShopID : UUID
deriving DecidableEq, Repr

/-- Go `dto.PublicProductResponse`. -/
structure PublicProductResponse where
  ID : UUID
  Name : String
  Description : String
  Category : String
  SellingPrice : Rat
  Stock : Int
  StockStatus : String
  ImageURL : String
  WhatsAppLink : String
deriving DecidableEq, Repr

/-! ## Responses -/

/-- JSON payloads written by the handlers. `registered` is the `message` and `user` map of
`Register`, `login` is `dto.LoginResponse`, `transactions` and `publicProducts` are the maps
written by `GetTransactions` and `GetPublicProducts`. -/
inductive Body where
  | error (msg : String)
  | message (msg : String)
  | product (p : PrivateProductResponse)
  | transaction (t : Transaction) (product : Option Product)
  | registered (u : UserResponse)
  | user (u : UserResponse)
  | login (token : String) (u : UserResponse)
  | transactions (items : List (Transaction × Option Product)) (total : Nat)
  | publicProducts (shopID : UUID) (shopName : String) (products : List PublicProductResponse)
      (total : Nat)
deriving DecidableEq, Repr

/-- An HTTP response: status code and payload. -/
structure Response where
  status : Nat
  body : Body
deriving DecidableEq, Repr

/-! ## Database statements (GORM calls used by the handlers) -/

/-- Soft-delete scope: rows with a tombstone are invisible to queries and updates. -/
def Product.live (p : Product) : Bool := p.DeletedAt.isNone

/-- Query `Where("id = ? AND shop_id = ?", id, shopID).First(&product)`. -/
def firstProductOfShop (s : Store) (id shopID : UUID) : Option Product :=
  s.products.find? (fun p => decide (p.ID = id) && decide (p.ShopID = shopID) && p.live)

/-- Query `First(&product, "id = ?", id)`, also the lookup behind `Preload("Product")`. -/
def firstProductByID (s : Store) (id : UUID) : Option Product :=
  s.products.find? (fun p => decide (p.ID = id) && p.live)

/-- Statement `tx.Model(&product).Update("stock", v)`: sets the stock of the live row
whose primary key is `id`. -/
def updateStock (s : Store) (id : UUID) (v : Int) : Store :=
  { s with products :=
      s.products.map (fun p => if p.ID = id ∧ p.live = true then { p with Stock := v } else p) }

/-- Statement `tx.Create(&transaction)`: appends the row. -/
def insertTransaction (s : Store) (t : Transaction) : Store :=
  { s with transactions := s.transactions ++ [t] }

/-- Statement `h.db.Create(&product)`: appends the row. -/
def insertProduct (s : Store) (p : Product) : Store :=
  { s with products := s.products ++ [p] }

/-- GORM `db.Transaction(fc)`: runs `fc` on the store; commits its writes when it returns
no error (and the commit itself succeeds), otherwise rolls back to the store at entry.
The driver's error text of a failed commit or insert is not modelled; a fixed text stands
for it. -/
def dbTransaction {α : Type} (f : Faults) (fc : Store → Except String (Store × α))
    (s : Store) : Store × Except String α :=
  match fc s with
  | .error e => (s, .error e)
  | .ok (s1, a) => if f.commit then (s, .error "commit failed") else (s1, .ok a)

/-! ## Transaction handler (`internal/handlers/transaction.go`) -/

/-- Conversion `rune(n)` of a Go `int` to `int32`: two's complement truncation. -/
def toRune (n : Int) : Int := (n + 2147483648) % 4294967296 - 2147483648

/-- Conversion `string(r)` of a rune: the UTF-8 text of the code point, or of U+FFFD when
the value is not a valid code point. -/
def runeToString (r : Int) : String :=
  if 0 ≤ r ∧ r.toNat.isValidChar then String.singleton (Char.ofNat r.toNat)
  else String.singleton (Char.ofNat 65533)

/-- The record built by the closure: `models.Transaction{Type, ProductID, Quantity, Amount,
Comment, ShopID}`, with the id set by `BeforeCreate` and the creation time set on insert. -/
def CreateTransaction.record (shopID : UUID) (req : CreateTransactionRequest)
    (newID : UUID) (now : Time) : Transaction :=
  { ID := newID, Type_ := req.Type_, ProductID := req.ProductID, Quantity := req.Quantity,
    Amount := req.Amount, Comment := req.Comment, ShopID := shopID, CreatedAt := now }

/-- The closure passed to `h.db.Transaction` in `CreateTransaction`. -/
def CreateTransaction.fc (f : Faults) (shopID : UUID) (req : CreateTransactionRequest)
    (newID : UUID) (now : Time) (tx : Store) : Except String (Store × Transaction) := do
  let tx1 ←
    if req.Type_ = "Sale" then
      match req.ProductID with
      | none => throw "product_id is required for Sale transactions"
      | some pid =>
        if req.Quantity ≤ 0 then throw "quantity must be greater than 0 for Sales"
        else
          match firstProductOfShop tx pid shopID with
          | none => throw "product not found"
          | some product =>
            if product.Stock < req.Quantity then
              throw ("insufficient stock: available " ++ runeToString (toRune (48 + product.Stock)))
            else if f.updateStock then throw "failed to update stock"
            else pure (updateStock tx product.ID (product.Stock - req.Quantity))
    else pure tx
  let transaction := CreateTransaction.record shopID req newID now
  if f.createTransaction then throw "failed to create transaction"
  else pure (insertTransaction tx1 transaction, transaction)

/-- Go `TransactionHandler.CreateTransaction`. -/
def CreateTransaction (f : Faults) (c : Context) (body : Option CreateTransactionRequest)
    (newID : UUID) (now : Time) (s : Store) : Store × Response :=
  match GetShopIDFromContext c with
  | (_, false) => (s, ⟨401, .error "Unauthorized"⟩)
  | (shopID, true) =>
    match ShouldBindJSON CreateTransactionRequest.binding body with
    | none => (s, ⟨400, .error "invalid request body"⟩)
    | some req =>
      match dbTransaction f (CreateTransaction.fc f shopID req newID now) s with
      | (s1, .error e) => (s1, ⟨400, .error e⟩)
      | (s1, .ok transaction) =>
        (s1, ⟨201, .transaction transaction
                (transaction.ProductID.bind (fun pid => firstProductByID s1 pid))⟩)

/-! ## Product handlers (`internal/handlers/product.go`) -/

/-- Go `toPrivateResponse`: the purchase price is copied only for the role `SuperAdmin`. -/
def toPrivateResponse (p : Product) (role : String) : PrivateProductResponse :=
  { ID := p.ID, Name := p.Name, Description := p.Description, Category := p.Category,
    PurchasePrice := if role = "SuperAdmin" then p.PurchasePrice else 0,
    SellingPrice := p.SellingPrice, Stock := p.Stock, ImageURL := p.ImageURL,
    ShopID := p.ShopID }

/-- Go `ProductHandler.GetProduct`; `param` is the path parameter `id`. -/
def GetProduct (uuidParse : String → Option UUID) (c : Context) (param : String)
    (s : Store) : Response :=
  match GetShopIDFromContext c with
  | (_, false) => ⟨401, .error "Unauthorized"⟩
  | (shopID, true) =>
    match uuidParse param with
    | none => ⟨400, .error "Invalid product ID"⟩
    | some productID =>
      match firstProductOfShop s productID shopID with
      | none => ⟨404, .error "Product not found"⟩
      | some product => ⟨200, .product (toPrivateResponse product (GetRoleFromContext c))⟩

/-- Go `ProductHandler.CreateProduct`. -/
def CreateProduct (f : Faults) (c : Context) (body : Option CreateProductRequest)
    (newID : UUID) (now : Time) (s : Store) : Store × Response :=
  match GetShopIDFromContext c with
  | (_, false) => (s, ⟨401, .error "Unauthorized"⟩)
  | (shopID, true) =>
    match ShouldBindJSON CreateProductRequest.binding body with
    | none => (s, ⟨400, .error "invalid request body"⟩)
    | some req =>
      let product : Product :=
        { ID := newID, Name := req.Name, Description := req.Description,
          Category := req.Category, PurchasePrice := req.PurchasePrice,
          SellingPrice := req.SellingPrice, Stock := req.Stock, ImageURL := req.ImageURL,
          ShopID := shopID, CreatedAt := now, DeletedAt := none }
      if f.createProduct then (s, ⟨500, .error "Failed to create product"⟩)
      else (insertProduct s product, ⟨201, .product (toPrivateResponse product (GetRoleFromContext c))⟩)

/-- The `updates` map built by `UpdateProduct`, applied to one row: a key is present
exactly when its guard in the handler holds. -/
def applyUpdates (req : UpdateProductRequest) (p : Product) : Product :=
  let p := if req.Name ≠ "" then { p with Name := req.Name } else p
  let p := if req.Description ≠ "" then { p with Description := req.Description } else p
  let p := if req.Category ≠ "" then { p with Category := req.Category } else p
  let p := if req.PurchasePrice > 0 then { p with PurchasePrice := req.PurchasePrice } else p
  let p := if req.SellingPrice > 0 then { p with SellingPrice := req.SellingPrice } else p
  let p := if req.Stock ≥ 0 then { p with Stock := req.Stock } else p
  let p := if req.ImageURL ≠ "" then { p with ImageURL := req.ImageURL } else p
  p

/-- Statement `h.db.Model(&product).Updates(updates)`: rewrites the live row whose primary
key is `id`. -/
def updateProductRow (s : Store) (id : UUID) (req : UpdateProductRequest) : Store :=
  { s with products :=
      s.products.map (fun p => if p.ID = id ∧ p.live = true then applyUpdates req p else p) }

/-- Go `ProductHandler.UpdateProduct`; `param` is the path parameter `id`. -/
def UpdateProduct (uuidParse : String → Option UUID) (f : Faults) (c : Context)
    (param : String) (body : Option UpdateProductRequest) (s : Store) : Store × Response :=
  match GetShopIDFromContext c with
  | (_, false) => (s, ⟨401, .error "Unauthorized"⟩)
  | (shopID, true) =>
    match uuidParse param with
    | none => (s, ⟨400, .error "Invalid product ID"⟩)
    | some productID =>
      match firstProductOfShop s productID shopID with
      | none => (s, ⟨404, .error "Product not found"⟩)
      | some product =>
        match ShouldBindJSON (fun _ => true) body with
        | none => (s, ⟨400, .error "invalid request body"⟩)
        | some req =>
          if f.updateProduct then (s, ⟨500, .error "Failed to update product"⟩)
          else
            let s1 := updateProductRow s product.ID req
            let reloaded := (firstProductByID s1 productID).getD (applyUpdates req product)
            (s1, ⟨200, .product (toPrivateResponse reloaded (GetRoleFromContext c))⟩)

/-- Statement `Where("id = ? AND shop_id = ?", id, shopID).Delete(&models.Product{})`:
tombstones the matching live rows. -/
def softDeleteProduct (s : Store) (id shopID : UUID) (now : Time) : Store :=
  { s with products :=
      s.products.map (fun p =>
        if p.ID = id ∧ p.ShopID = shopID ∧ p.live = true then { p with DeletedAt := some now }
        else p) }

/-- The `RowsAffected` of the soft-delete statement. -/
def softDeleteRowsAffected (s : Store) (id shopID : UUID) : Nat :=
  s.products.countP (fun p => decide (p.ID = id) && decide (p.ShopID = shopID) && p.live)

/-- Go `ProductHandler.DeleteProduct`; `param` is the path parameter `id`. -/
def DeleteProduct (uuidParse : String → Option UUID) (f : Faults) (c : Context)
    (param : String) (now : Time) (s : Store) : Store × Response :=
  match GetShopIDFromContext c with
  | (_, false) => (s, ⟨401, .error "Unauthorized"⟩)
  | (shopID, true) =>
    match uuidParse param with
    | none => (s, ⟨400, .error "Invalid product ID"⟩)
    | some productID =>
      if f.deleteProduct then (s, ⟨500, .error "Failed to delete product"⟩)
      else
        let s1 := softDeleteProduct s productID shopID now
        if softDeleteRowsAffected s productID shopID = 0 then
          (s1, ⟨404, .error "Product not found"⟩)
        else (s1, ⟨200, .message "Product deleted successfully"⟩)

/-! ## Authentication middleware (`internal/middleware/auth.go`) -/

/-- A decoded JSON value held in `jwt.MapClaims`. -/
inductive ClaimValue where
  | str (s : String)
  | num (q : Rat)
  | bool (b : Bool)
  | null
  | other
deriving DecidableEq, Repr

/-- Go `jwt.MapClaims`: claim names with their decoded values. -/
abbrev MapClaims := List (String × ClaimValue)

/-- Go `v, _ := claims[key].(string)`: the claim when it is a string, else the empty string. -/
def stringClaim (claims : MapClaims) (key : String) : String :=
  match claims.lookup key with
  | some (.str v) => v
  | _ => ""

/-- The parts of an inbound HTTP request that a handler or middleware could read. -/
structure Request where
  Authorization : String
  params : List (String × String)
  query : List (String × String)
  body : String
deriving DecidableEq, Repr

/-- Go `strings.SplitN(s, " ", 2)`: the text before the first space and the text after it,
or the whole text when it holds no space. -/
def SplitN2 (s : String) : List String :=
  match s.toList.span (fun ch => ch != ' ') with
  | (a, []) => [String.mk a]
  | (a, _ :: b) => [String.mk a, String.mk b]

/-- Go `strings.EqualFold(s, "Bearer")`. None of the letters of `Bearer` has a non-ASCII
case variant, so the test is equality after ASCII lower-casing. -/
def EqualFoldBearer (s : String) : Bool :=
  s.toList.map Char.toLower == ['b', 'e', 'a', 'r', 'e', 'r']

/-- The tail of `AuthRequired`, from the verified claims on: reads the four claims, parses
the two identifiers and fills the context. -/
def AuthRequired.fromClaims (uuidParse : String → Option UUID) (claims : MapClaims) :
    Except Response Context :=
  let userIDStr := stringClaim claims "user_id"
  let shopIDStr := stringClaim claims "shop_id"
  let role := stringClaim claims "role"
  let email := stringClaim claims "email"
  match uuidParse userIDStr with
  | none => .error ⟨401, .error "Invalid user ID in token"⟩
  | some userID =>
    match uuidParse shopIDStr with
    | none => .error ⟨401, .error "Invalid shop ID in token"⟩
    | some shopID =>
      .ok { userID := some userID, shopID := some shopID, role := some role, email := some email }

/-- Go `AuthRequired`. `jwtParse token secret now` stands for `jwt.Parse` with the HMAC-only
key function: the claims of a token whose signature and expiry verify, else `none`.
`jwt.Parse` always yields `jwt.MapClaims`, so the type assertion on `token.Claims` holds.
`envSecret` is the value of `JWT_SECRET`. The result is either the aborting response or the
context handed to the next handler. -/
def AuthRequired (jwtParse : String → String → Time → Option MapClaims)
    (uuidParse : String → Option UUID) (envSecret : String) (now : Time) (r : Request) :
    Except Response Context :=
  let authHeader := r.Authorization
  if authHeader = "" then .error ⟨401, .error "Authorization header is required"⟩
  else
    match SplitN2 authHeader with
    | [p0, tokenString] =>
      if !EqualFoldBearer p0 then .error ⟨401, .error "Format: Authorization: Bearer <token>"⟩
      else
        let secret := if envSecret = "" then "default-secret-change-in-production" else envSecret
        match jwtParse tokenString secret now with
        | none => .error ⟨401, .error "Invalid or expired token"⟩
        | some claims => AuthRequired.fromClaims uuidParse claims
    | _ => .error ⟨401, .error "Format: Authorization: Bearer <token>"⟩

/-! ## Sequences of calls -/

/-- One call of a store-changing product or transaction handler, with everything it receives. -/
inductive Call where
  | createProduct (f : Faults) (c : Context) (body : Option CreateProductRequest)
      (newID : UUID) (now : Time)
  | updateProduct (f : Faults) (c : Context) (param : String)
      (body : Option UpdateProductRequest)
  | deleteProduct (f : Faults) (c : Context) (param : String) (now : Time)
  | createTransaction (f : Faults) (c : Context) (body : Option CreateTransactionRequest)
      (newID : UUID) (now : Time)

/-- The handler behind a call, run on a store. -/
def Call.run (uuidParse : String → Option UUID) (call : Call) (s : Store) : Store × Response :=
  match call with
  | .createProduct f c body newID now => CreateProduct f c body newID now s
  | .updateProduct f c param body => UpdateProduct uuidParse f c param body s
  | .deleteProduct f c param now => DeleteProduct uuidParse f c param now s
  | .createTransaction f c body newID now => CreateTransaction f c body newID now s

/-- Sequential execution of calls, one after the other, keeping the store. -/
def runCalls (uuidParse : String → Option UUID) (calls : List Call) (s : Store) : Store :=
  calls.foldl (fun st call => (call.run uuidParse st).1) s

/-- Every product row has a non-negative stock. -/
def StockNonNeg (s : Store) : Prop := ∀ p ∈ s.products, 0 ≤ p.Stock

/-- Primary key of `products`: no two rows share an id. -/
def ProductKeysUnique (s : Store) : Prop := s.products.Pairwise (fun a b => a.ID ≠ b.ID)

/-! ## Interleaved Sale requests

The closure of `CreateTransaction` issues its statements one at a time: the `First` query
(read-stock), the comparison on the fetched row (check), the `Update` of `stock`
(write-stock) and the `Create` of the record (insert). A run of one Sale request is a small
machine over these four points; two runs share the store and a schedule picks who moves. -/

/-- Program point of one Sale request inside the closure. -/
inductive SalePC where
  | readStock
  | check
  | writeStock
  | insert
  | committed
  | aborted (err : String)
deriving DecidableEq, Repr

/-- One in-flight Sale request: its inputs, its program point and its local `product`. -/
structure SaleRun where
  shopID : UUID
  req : CreateTransactionRequest
  newID : UUID
  now : Time
  pc : SalePC
  product : Option Product
deriving DecidableEq, Repr

/-- A Sale request about to enter the closure. -/
def SaleRun.start (shopID : UUID) (req : CreateTransactionRequest) (newID : UUID) (now : Time) :
    SaleRun :=
  { shopID := shopID, req := req, newID := newID, now := now, pc := .readStock, product := none }

/-- One statement of the Sale branch of the closure, executed against the shared store. -/
def SaleRun.step (s : Store) (t : SaleRun) : Store × SaleRun :=
  match t.pc with
  | .readStock =>
    match t.req.ProductID with
    | none => (s, { t with pc := .aborted "product_id is required for Sale transactions" })
    | some pid =>
      if t.req.Quantity ≤ 0 then
        (s, { t with pc := .aborted "quantity must be greater than 0 for Sales" })
      else
        match firstProductOfShop s pid t.shopID with
        | none => (s, { t with pc := .aborted "product not found" })
        | some product => (s, { t with pc := .check, product := some product })
  | .check =>
    match t.product with
    | none => (s, t)
    | some product =>
      if product.Stock < t.req.Quantity then
        let err := "insufficient stock: available " ++ runeToString (toRune (48 + product.Stock))
        (s, { t with pc := .aborted err })
      else (s, { t with pc := .writeStock })
  | .writeStock =>
    match t.product with
    | none => (s, t)
    | some product =>
      (updateStock s product.ID (product.Stock - t.req.Quantity), { t with pc := .insert })
  | .insert =>
    (insertTransaction s (CreateTransaction.record t.shopID t.req t.newID t.now),
      { t with pc := .committed })
  | .committed => (s, t)
  | .aborted _ => (s, t)

/-- Two in-flight Sale requests over one store. -/
structure Race where
  store : Store
  first : SaleRun
  second : SaleRun
deriving DecidableEq, Repr

/-- One scheduling decision: `false` lets the first request execute its next statement,
`true` the second. -/
def Race.step (r : Race) (who : Bool) : Race :=
  if who then
    let (s1, t1) := r.second.step r.store
    { r with store := s1, second := t1 }
  else
    let (s1, t1) := r.first.step r.store
    { r with store := s1, first := t1 }

/-- A whole schedule, decision after decision. -/
def Race.run (r : Race) (schedule : List Bool) : Race :=
  schedule.foldl Race.step r

/-! ## Role middleware and route wiring (`CheckRole`, `cmd/main.go`) -/

/-- Go `CheckRole(roles...)` run on a context: `.ok ()` stands for `c.Next()`, an error for
the aborting response. The role stored by `AuthRequired` is always a string. -/
def CheckRole (roles : List String) (c : Context) : Except Response Unit :=
  match c.role with
  | none => .error ⟨403, .error "Role not found"⟩
  | some userRole =>
    if roles.any (fun r => userRole == r) then .ok ()
    else .error ⟨403, .error ("Access denied. Required: " ++ " or ".intercalate roles)⟩

/-- The route groups registered under `/api` in `main`. -/
inductive ApiGroup where
  | shops
  | products
  | transactions
  | users
  | reports
deriving DecidableEq, Repr

/-- The `CheckRole` middlewares attached with `Use` to each group in `main`, as the role
lists they were built from; a group without `Use` has none. -/
def ApiGroup.checkRoles : ApiGroup → List (List String)
  | .shops => [["SuperAdmin"]]
  | .products => []
  | .transactions => []
  | .users => [["SuperAdmin"]]
  | .reports => [["SuperAdmin"]]

/-- The group middlewares run in order on a context; the first abort ends the chain. -/
def ApiGroup.guard (g : ApiGroup) (c : Context) : Except Response Unit :=
  g.checkRoles.foldlM (fun _ roles => CheckRole roles c) ()

/-- The middleware chain in front of every handler of a group: `AuthRequired` (attached to
`/api`), then the group middlewares. The result is the context the handler receives. -/
def apiChain (jwtParse : String → String → Time → Option MapClaims)
    (uuidParse : String → Option UUID) (envSecret : String) (now : Time) (g : ApiGroup)
    (r : Request) : Except Response Context :=
  match AuthRequired jwtParse uuidParse envSecret now r with
  | .error resp => .error resp
  | .ok c =>
    match g.guard c with
    | .error resp => .error resp
    | .ok _ => .ok c

/-! ## Account handlers (`internal/handlers/auth.go`, `internal/handlers/user.go`) -/

/-- Query `Where("email = ?", email).First(&user)`. -/
def firstUserByEmail (s : Store) (email : String) : Option User :=
  s.users.find? (fun u => decide (u.Email = email))

/-- Query `First(&shop, "id = ?", id)`. -/
def firstShopByID (s : Store) (id : UUID) : Option Shop :=
  s.shops.find? (fun sh => decide (sh.ID = id))

/-- Statement `h.db.Create(&shop)`: appends the row. -/
def insertShop (s : Store) (sh : Shop) : Store :=
  { s with shops := s.shops ++ [sh] }

/-- Statement `h.db.Create(&user)`: appends the row. -/
def insertUser (s : Store) (u : User) : Store :=
  { s with users := s.users ++ [u] }

/-- The shop branch of `Register`: joins the shop named by `shop_id`, or founds a new one.
The result is the store after the branch and the shop id of the new user, or the response
that ends the handler. -/
def Register.resolveShop (uuidParse : String → Option UUID) (f : Faults) (req : RegisterRequest)
    (newShopID : UUID) (now : Time) (s : Store) : Except Response (Store × UUID) :=
  if req.ShopID ≠ "" then
    match uuidParse req.ShopID with
    | none => .error ⟨400, .error "Invalid shop_id format"⟩
    | some parsedID =>
      match firstShopByID s parsedID with
      | none => .error ⟨404, .error "Shop not found"⟩
      | some _ => .ok (s, parsedID)
  else if req.ShopName = "" ∨ req.WhatsAppNumber = "" then
    .error ⟨400, .error "shop_name and whatsapp_number are required when creating a new shop"⟩
  else if req.Role ≠ "SuperAdmin" then
    .error ⟨400, .error "Only SuperAdmin can create a new shop"⟩
  else if f.createShop then .error ⟨500, .error "Failed to create shop"⟩
  else
    .ok (insertShop s
          { ID := newShopID, Name := req.ShopName, Active := true,
            WhatsAppNumber := req.WhatsAppNumber, CreatedAt := now },
        newShopID)

/-- Go `AuthHandler.Register`. `hash` stands for `bcrypt.GenerateFromPassword` at cost 12
(`none` is its error); `newShopID` and `newUserID` are the ids drawn by `BeforeCreate`. -/
def Register (validEmail : String → Bool) (uuidParse : String → Option UUID)
    (hash : String → Option String) (f : Faults) (body : Option RegisterRequest)
    (newShopID newUserID : UUID) (now : Time) (s : Store) : Store × Response :=
  match ShouldBindJSON (RegisterRequest.binding validEmail) body with
  | none => (s, ⟨400, .error "invalid request body"⟩)
  | some req =>
    match firstUserByEmail s req.Email with
    | some _ => (s, ⟨409, .error "Email already registered"⟩)
    | none =>
      match Register.resolveShop uuidParse f req newShopID now s with
      | .error resp => (s, resp)
      | .ok (s1, shopID) =>
        match hash req.Password with
        | none => (s1, ⟨500, .error "Failed to process password"⟩)
        | some hashedPassword =>
          let user : User :=
            { ID := newUserID, Name := req.Name, Email := req.Email, Password := hashedPassword,
              Role := req.Role, ShopID := shopID, CreatedAt := now }
          if f.createUser then (s1, ⟨500, .error "Failed to create user"⟩)
          else
            (insertUser s1 user,
              ⟨201, .registered
                { ID := user.ID, Name := user.Name, Email := user.Email, Role := user.Role,
                  ShopID := user.ShopID }⟩)

/-- Go `t.Unix()`: whole seconds since the epoch. -/
def unixSeconds (t : Time) : Int := t / 1000000000

/-- The claims map built by `generateToken`: identity, tenant, role, email, expiry
24 hours after the issue time, and the issue time. -/
def tokenClaims (uuidString : UUID → String) (now : Time) (userID shopID : UUID)
    (role email : String) : MapClaims :=
  [("user_id", .str (uuidString userID)), ("shop_id", .str (uuidString shopID)),
   ("role", .str role), ("email", .str email),
   ("exp", .num (unixSeconds (now + 24 * 3600 * 1000000000))), ("iat", .num (unixSeconds now))]

/-- Go `generateToken`. `jwtSign claims secret` stands for
`jwt.NewWithClaims(jwt.SigningMethodHS256, claims).SignedString(secret)` (`none` is its
error) and `uuidString` for `UUID.String`. -/
def generateToken (jwtSign : MapClaims → String → Option String) (uuidString : UUID → String)
    (envSecret : String) (now : Time) (user : User) : Option String :=
  let secret := if envSecret = "" then "default-secret-change-in-production" else envSecret
  jwtSign (tokenClaims uuidString now user.ID user.ShopID user.Role user.Email) secret

/-- Go `AuthHandler.Login`. `compare hashed password` stands for
`bcrypt.CompareHashAndPassword` returning no error. -/
def Login (validEmail : String → Bool) (compare : String → String → Bool)
    (jwtSign : MapClaims → String → Option String) (uuidString : UUID → String)
    (envSecret : String) (body : Option LoginRequest) (now : Time) (s : Store) : Response :=
  match ShouldBindJSON (LoginRequest.binding validEmail) body with
  | none => ⟨400, .error "invalid request body"⟩
  | some req =>
    match firstUserByEmail s req.Email with
    | none => ⟨401, .error "Invalid credentials"⟩
    | some user =>
      if !compare user.Password req.Password then ⟨401, .error "Invalid credentials"⟩
      else
        match generateToken jwtSign uuidString envSecret now user with
        | none => ⟨500, .error "Failed to generate token"⟩
        | some token =>
          ⟨200, .login token
            { ID := user.ID, Name := user.Name, Email := user.Email, Role := user.Role,
              ShopID := user.ShopID }⟩

/-- Go `UserHandler.CreateUser`. -/
def CreateUser (validEmail : String → Bool) (hash : String → Option String) (f : Faults)
    (c : Context) (body : Option CreateUserRequest) (newUserID : UUID) (now : Time)
    (s : Store) : Store × Response :=
  match GetShopIDFromContext c with
  | (_, false) => (s, ⟨401, .error "Unauthorized"⟩)
  | (shopID, true) =>
    match ShouldBindJSON (CreateUserRequest.binding validEmail) body with
    | none => (s, ⟨400, .error "invalid request body"⟩)
    | some req =>
      match firstUserByEmail s req.Email with
      | some _ => (s, ⟨409, .error "Email already exists"⟩)
      | none =>
        match hash req.Password with
        | none => (s, ⟨500, .error "Failed to process password"⟩)
        | some hashedPassword =>
          let user : User :=
            { ID := newUserID, Name := req.Name, Email := req.Email, Password := hashedPassword,
              Role := req.Role, ShopID := shopID, CreatedAt := now }
          if f.createUser then (s, ⟨500, .error "Failed to create user"⟩)
          else
            (insertUser s user,
              ⟨201, .user
                { ID := user.ID, Name := user.Name, Email := user.Email, Role := user.Role,
                  ShopID := user.ShopID }⟩)

/-- One call of an account-creating handler, with everything it receives. -/
inductive AccountCall where
  | register (f : Faults) (body : Option RegisterRequest) (newShopID newUserID : UUID)
      (now : Time)
  | createUser (f : Faults) (c : Context) (body : Option CreateUserRequest) (newUserID : UUID)
      (now : Time)

/-- The handler behind an account call, run on a store. -/
def AccountCall.run (validEmail : String → Bool) (uuidParse : String → Option UUID)
    (hash : String → Option String) (call : AccountCall) (s : Store) : Store × Response :=
  match call with
  | .register f body newShopID newUserID now =>
    Register validEmail uuidParse hash f body newShopID newUserID now s
  | .createUser f c body newUserID now => CreateUser validEmail hash f c body newUserID now s

/-- Sequential execution of account calls, keeping the store. -/
def runAccountCalls (validEmail : String → Bool) (uuidParse : String → Option UUID)
    (hash : String → Option String) (calls : List AccountCall) (s : Store) : Store :=
  calls.foldl (fun st call => (call.run validEmail uuidParse hash st).1) s

/-- No two user rows share an email. -/
def EmailsUnique (s : Store) : Prop := s.users.Pairwise (fun a b => a.Email ≠ b.Email)

/-! ## JSON shape of serialized products (struct tags of `dto` and `models`) -/

/-- A scalar JSON value as written by `encoding/json` for the fields of a product. -/
inductive JSONValue where
  | str (s : String)
  | num (q : Rat)
  | int (n : Int)
  | uuid (id : UUID)
  | time (t : Time)
deriving DecidableEq, Repr

/-- The JSON object written for a `dto.PrivateProductResponse`: every field has a plain
tag, so every key is written, zero values included. -/
def PrivateProductResponse.jsonFields (r : PrivateProductResponse) :
    List (String × JSONValue) :=
  [("id", .uuid r.ID), ("name", .str r.Name), ("description", .str r.Description),
   ("category", .str r.Category), ("purchase_price", .num r.PurchasePrice),
   ("selling_price", .num r.SellingPrice), ("stock", .int r.Stock),
   ("image_url", .str r.ImageURL), ("shop_id", .uuid r.ShopID)]

/-- The JSON object written for a `models.Product`: `purchase_price` has `omitempty` and is
left out only when it is zero; `Shop` and `DeletedAt` are tagged `-` and never written. -/
def Product.jsonFields (p : Product) : List (String × JSONValue) :=
  [("id", .uuid p.ID), ("name", .str p.Name), ("description", .str p.Description),
   ("category", .str p.Category)]
  ++ (if p.PurchasePrice = 0 then [] else [("purchase_price", .num p.PurchasePrice)])
  ++ [("selling_price", .num p.SellingPrice), ("stock", .int p.Stock),
      ("image_url", .str p.ImageURL), ("shop_id", .uuid p.ShopID),
      ("created_at", .time p.CreatedAt)]

/-! ## Transaction listing (`GetTransactions`) -/

/-- Go `TransactionHandler.GetTransactions`. The three texts are the query parameters
`type`, `date_from` and `date_to` (empty when absent); `parseDate` stands for
`time.Parse("2006-01-02", _)`, the start of the named day. Rows come back ordered by
`created_at` descending, each with its preloaded product. -/
def GetTransactions (parseDate : String → Option Time) (c : Context)
    (transactionType dateFrom dateTo : String) (s : Store) : Response :=
  match GetShopIDFromContext c with
  | (_, false) => ⟨401, .error "Unauthorized"⟩
  | (shopID, true) =>
    let query := s.transactions.filter (fun t => decide (t.ShopID = shopID))
    let query :=
      if transactionType ≠ "" then query.filter (fun t => decide (t.Type_ = transactionType))
      else query
    let query :=
      if dateFrom ≠ "" then
        match parseDate dateFrom with
        | some t0 => query.filter (fun t => decide (t.CreatedAt ≥ t0))
        | none => query
      else query
    let query :=
      if dateTo ≠ "" then
        match parseDate dateTo with
        | some t1 =>
          query.filter (fun t => decide (t.CreatedAt ≤ t1 + (24 * 3600 * 1000000000 - 1000000000)))
        | none => query
      else query
    let transactions := query.insertionSort (fun a b => a.CreatedAt ≥ b.CreatedAt)
    let items := transactions.map (fun t => (t, t.ProductID.bind (fun pid => firstProductByID s pid)))
    ⟨200, .transactions items items.length⟩

/-! ## Public storefront (`internal/handlers/public.go`) -/

/-- The stock-status label chosen in the loop of `GetPublicProducts`. -/
def stockStatus (stock : Int) : String :=
  if stock = 0 then "Rupture de stock"
  else if stock < 5 then "Stock limité"
  else "En stock"

/-- Go `buildWhatsAppLink`; `queryEscape` stands for `url.QueryEscape`. -/
def buildWhatsAppLink (queryEscape : String → String) (whatsAppNumber productName : String) :
    String :=
  "https://wa.me/" ++ whatsAppNumber ++ "?text="
    ++ queryEscape ("Bonjour je veux plus d\x27information sur " ++ productName)

/-- Query `Where("id = ? AND active = true", id).First(&shop)`. -/
def firstActiveShop (s : Store) (id : UUID) : Option Shop :=
  s.shops.find? (fun sh => decide (sh.ID = id) && sh.Active)

/-- Go `PublicHandler.GetPublicProducts`. `shopIDStr` is the path parameter, `category` and
`inStockOnly` are the query parameters `category` and `in_stock_only`. -/
def GetPublicProducts (uuidParse : String → Option UUID) (queryEscape : String → String)
    (shopIDStr category inStockOnly : String) (s : Store) : Response :=
  match uuidParse shopIDStr with
  | none => ⟨400, .error "Invalid shop ID format"⟩
  | some shopID =>
    match firstActiveShop s shopID with
    | none => ⟨404, .error "Shop not found or inactive"⟩
    | some shop =>
      let hideOutOfStock := decide (inStockOnly = "true")
      let query := s.products.filter (fun p => decide (p.ShopID = shopID) && p.live)
      let query :=
        if category ≠ "" then query.filter (fun p => decide (p.Category = category)) else query
      let query := if hideOutOfStock then query.filter (fun p => decide (p.Stock > 0)) else query
      let responses : List PublicProductResponse :=
        query.map (fun p =>
          { ID := p.ID, Name := p.Name, Description := p.Description, Category := p.Category,
            SellingPrice := p.SellingPrice, Stock := p.Stock, StockStatus := stockStatus p.Stock,
            ImageURL := p.ImageURL,
            WhatsAppLink := buildWhatsAppLink queryEscape shop.WhatsAppNumber p.Name })
      ⟨200, .publicProducts shop.ID shop.Name responses responses.length⟩

/-! ## Sample data -/

/-- A stand-in for `uuid.Parse` on two well-formed identifiers; every other text, the empty
one included, is rejected. -/
def sampleParse (text : String) : Option UUID :=
  [("00000000-0000-0000-0000-000000000001", 1),
   ("00000000-0000-0000-0000-000000000002", 2),
   ("00000000-0000-0000-0000-00000000000a", 10)].lookup text

/-- A product of shop 10 with three units in stock. -/
def sampleProduct : Product :=
  { ID := 1, Name := "phone", Description := "", Category := "mobile", PurchasePrice := 80,
    SellingPrice := 100, Stock := 3, ImageURL := "", ShopID := 10, CreatedAt := 0,
    DeletedAt := none }

/-- A product of another shop, 20. -/
def foreignProduct : Product :=
  { ID := 2, Name := "laptop", Description := "", Category := "computer", PurchasePrice := 500,
    SellingPrice := 700, Stock := 5, ImageURL := "", ShopID := 20, CreatedAt := 0,
    DeletedAt := none }

/-- A store holding the two sample products and nothing else. -/
def sampleStore : Store :=
  { shops := [], users := [], products := [sampleProduct, foreignProduct], transactions := [] }

/-- The context of an authenticated Admin of shop 10. -/
def sampleContext : Context :=
  { userID := some 7, shopID := some 10, role := some "Admin", email := some "a@shop.test" }

/-- A Sale of two units of the sample product. -/
def sampleSale : CreateTransactionRequest :=
  { Type_ := "Sale", ProductID := some 1, Quantity := 2, Amount := 200, Comment := "" }

/-- An Expense that names the product of the other shop. -/
def sampleExpense : CreateTransactionRequest :=
  { Type_ := "Expense", ProductID := some 2, Quantity := 0, Amount := 15, Comment := "" }

/-- Two Sale requests of two units each on the sample product, both about to start. -/
def sampleRace : Race :=
  { store := sampleStore,
    first := SaleRun.start 10 sampleSale 100 50,
    second := SaleRun.start 10 sampleSale 101 51 }

/-- A stand-in for `jwt.Parse`: three tokens verify under the default secret before instant
1000; the second lacks a role claim and the third carries a numeric one. -/
def sampleJwt (token secret : String) (now : Time) : Option MapClaims :=
  if secret = "default-secret-change-in-production" ∧ now < 1000 then
    [("tok-admin",
        [("user_id", ClaimValue.str "00000000-0000-0000-0000-000000000001"),
         ("shop_id", ClaimValue.str "00000000-0000-0000-0000-00000000000a"),
         ("role", ClaimValue.str "Admin"), ("email", ClaimValue.str "a@shop.test"),
         ("exp", ClaimValue.num 1000)]),
     ("tok-norole",
        [("user_id", ClaimValue.str "00000000-0000-0000-0000-000000000001"),
         ("shop_id", ClaimValue.str "00000000-0000-0000-0000-00000000000a"),
         ("exp", ClaimValue.num 1000)]),
     ("tok-numrole",
        [("user_id", ClaimValue.str "00000000-0000-0000-0000-000000000001"),
         ("shop_id", ClaimValue.str "00000000-0000-0000-0000-00000000000a"),
         ("role", ClaimValue.num 7), ("exp", ClaimValue.num 1000)])].lookup token
  else none

/-- A representative of every kind of call: a Sale that fits, a Sale that exceeds the stock,
an update asking for a negative stock, a creation asking for a negative stock, a valid
creation, a deletion, and a Sale whose record insert is refused by the database. -/
def sampleCalls : List Call :=
  [ .createTransaction Faults.none sampleContext (some sampleSale) 100 50,
    .createTransaction Faults.none sampleContext (some sampleSale) 101 51,
    .updateProduct Faults.none sampleContext "00000000-0000-0000-0000-000000000001"
      (some { Name := "", Description := "", Category := "", PurchasePrice := 0,
              SellingPrice := 0, Stock := -4, ImageURL := "" }),
    .createProduct Faults.none sampleContext
      (some { Name := "case", Description := "", Category := "", PurchasePrice := 1,
              SellingPrice := 2, Stock := -1, ImageURL := "" }) 3 52,
    .createProduct Faults.none sampleContext
      (some { Name := "case", Description := "", Category := "", PurchasePrice := 1,
              SellingPrice := 2, Stock := 8, ImageURL := "" }) 3 52,
    .deleteProduct Faults.none sampleContext "00000000-0000-0000-0000-000000000001" 53,
    .createTransaction { Faults.none with createTransaction := true } sampleContext
      (some { sampleSale with ProductID := some 3 }) 102 54 ]

/-- A stand-in for the validator's `email` rule: the text holds an `@`. -/
def sampleValidEmail (text : String) : Bool := text.toList.contains '@'

/-- A stand-in for `bcrypt.GenerateFromPassword`. -/
def sampleHash (password : String) : Option String := some ("hash:" ++ password)

/-- A stand-in for `bcrypt.CompareHashAndPassword`, matching `sampleHash`. -/
def sampleCompare (hashed password : String) : Bool := hashed == "hash:" ++ password

/-- The shop 10. -/
def sampleShop : Shop :=
  { ID := 10, Name := "Atlas", Active := true, WhatsAppNumber := "212600000000", CreatedAt := 0 }

/-- An Admin of shop 10. -/
def sampleUser : User :=
  { ID := 7, Name := "Amina", Email := "a@shop.test", Password := "hash:secret1",
    Role := "Admin", ShopID := 10, CreatedAt := 0 }

/-- The sample store with its shop and its user. -/
def accountStore : Store :=
  { shops := [sampleShop], users := [sampleUser], products := [sampleProduct, foreignProduct],
    transactions := [] }

/-- A registration founding a new shop. -/
def sampleRegister : RegisterRequest :=
  { Name := "Badr", Email := "b@new.test", Password := "secret2", Role := "SuperAdmin",
    ShopName := "Rif", WhatsAppNumber := "212611111111", ShopID := "" }

/-- The context of an authenticated SuperAdmin of shop 10. -/
def superContext : Context :=
  { userID := some 8, shopID := some 10, role := some "SuperAdmin", email := some "s@shop.test" }

/-- Account calls of every kind: a registration founding a shop, the same registration
again, a user creation with a fresh email, one with the email of the first user, and a
registration joining shop 10 with the email just created. -/
def sampleAccountCalls : List AccountCall :=
  [ .register Faults.none (some sampleRegister) 30 31 60,
    .register Faults.none (some sampleRegister) 32 33 61,
    .createUser Faults.none superContext
      (some { Name := "Chadi", Email := "c@shop.test", Password := "secret3", Role := "Admin" })
      34 62,
    .createUser Faults.none superContext
      (some { Name := "Dounia", Email := "a@shop.test", Password := "secret4", Role := "Admin" })
      35 63,
    .register Faults.none
      (some { sampleRegister with
                Email := "c@shop.test", Role := "Admin", ShopName := "", WhatsAppNumber := "",
                ShopID := "00000000-0000-0000-0000-00000000000a" }) 36 37 64 ]

/-- A stand-in for `UUID.String`, the inverse of `sampleParse` on the ids 30 and 31. -/
def sampleUUIDString (id : UUID) : String :=
  if id = 30 then "00000000-0000-0000-0000-00000000001e"
  else if id = 31 then "00000000-0000-0000-0000-00000000001f"
  else "00000000-0000-0000-0000-000000000000"

/-- A stand-in for `uuid.Parse` that also reads the ids 30 and 31. -/
def sampleParseWide (text : String) : Option UUID :=
  if text = "00000000-0000-0000-0000-00000000001e" then some 30
  else if text = "00000000-0000-0000-0000-00000000001f" then some 31
  else sampleParse text

/-- A stand-in for signing: every claims map of the founder of shop 30 under the default
secret gets the token `tok-founder`. -/
def sampleSign (claims : MapClaims) (secret : String) : Option String :=
  if secret = "default-secret-change-in-production" ∧
      claims.lookup "user_id" = some (.str "00000000-0000-0000-0000-00000000001f")
  then some "tok-founder" else none

/-- A stand-in for `jwt.Parse` matching `sampleSign`: `tok-founder` verifies under the
default secret until its expiry, one day after instant 70. -/
def sampleVerify (token secret : String) (now : Time) : Option MapClaims :=
  if token = "tok-founder" ∧ secret = "default-secret-change-in-production" ∧
      unixSeconds now ≤ unixSeconds (70 + 24 * 3600 * 1000000000)
  then some (tokenClaims sampleUUIDString 70 31 30 "SuperAdmin" "b@new.test") else none

/-- A stand-in for `time.Parse("2006-01-02", _)` on two days: the first day of the epoch
starts at instant 0 and the second one 24 hours later. -/
def sampleParseDate (text : String) : Option Time :=
  if text = "1970-01-01" then some 0
  else if text = "1970-01-02" then some 86400000000000
  else none

/-- An Expense of shop 10 recorded at 23:59:59.000 of the first day. -/
def onTheSecond : Transaction :=
  { ID := 200, Type_ := "Expense", ProductID := none, Quantity := 0, Amount := 15,
    Comment := "", ShopID := 10, CreatedAt := 86399000000000 }

/-- An Expense of shop 10 recorded at 23:59:59.500 of the first day. -/
def inLastSecond : Transaction :=
  { ID := 201, Type_ := "Expense", ProductID := none, Quantity := 0, Amount := 20,
    Comment := "", ShopID := 10, CreatedAt := 86399500000000 }

/-- The sample store with the two late Expenses. -/
def datedStore : Store :=
  { shops := [sampleShop], users := [sampleUser], products := [sampleProduct, foreignProduct],
    transactions := [onTheSecond, inLastSecond] }

/-- A stand-in for `bcrypt.GenerateFromPassword` that refuses passwords of more than 72
characters, as the library does for more than 72 bytes. -/
def strictHash (password : String) : Option String :=
  if password.toList.length > 72 then none else some ("hash:" ++ password)

/-- A registration founding a new shop with a password of 80 characters. -/
def longPasswordRegister : RegisterRequest :=
  { sampleRegister with
      Password := "0123456789012345678901234567890123456789" ++
                  "0123456789012345678901234567890123456789" }

/-! ## Lemmas on the transaction closure and handler -/

theorem fc_not_sale (f : Faults) (shopID : UUID) (req : CreateTransactionRequest)
    (newID : UUID) (now : Time) (s : Store) (h : req.Type_ ≠ "Sale") :
    CreateTransaction.fc f shopID req newID now s =
      if f.createTransaction then .error "failed to create transaction"
      else .ok (insertTransaction s (CreateTransaction.record shopID req newID now),
        CreateTransaction.record shopID req newID now) := by
  unfold CreateTransaction.fc
  simp only [h, if_false]
  cases f.createTransaction <;> rfl

theorem fc_sale_ok (f : Faults) (shopID : UUID) (req : CreateTransactionRequest)
    (newID : UUID) (now : Time) (s s1 : Store) (t : Transaction) (h : req.Type_ = "Sale")
    (hok : CreateTransaction.fc f shopID req newID now s = .ok (s1, t)) :
    ∃ pid P, req.ProductID = some pid ∧ 0 < req.Quantity ∧
      firstProductOfShop s pid shopID = some P ∧ req.Quantity ≤ P.Stock ∧
      f.updateStock = false ∧ f.createTransaction = false ∧
      t = CreateTransaction.record shopID req newID now ∧
      s1 = insertTransaction (updateStock s P.ID (P.Stock - req.Quantity)) t := by
  unfold CreateTransaction.fc at hok
  simp only [h, if_true] at hok
  cases hpid : req.ProductID with
  | none => simp [hpid, bind, Except.bind, throw, throwThe, MonadExceptOf.throw] at hok
  | some pid =>
    simp only [hpid] at hok
    by_cases hq : req.Quantity ≤ 0
    · simp [hq, bind, Except.bind, throw, throwThe, MonadExceptOf.throw] at hok
    · simp only [hq, if_false] at hok
      cases hfind : firstProductOfShop s pid shopID with
      | none => simp [hfind, bind, Except.bind, throw, throwThe, MonadExceptOf.throw] at hok
      | some P =>
        simp only [hfind] at hok
        by_cases hst : P.Stock < req.Quantity
        · simp [hst, bind, Except.bind, throw, throwThe, MonadExceptOf.throw] at hok
        · simp only [hst, if_false] at hok
          cases hf : f.updateStock with
          | true => simp [hf, bind, Except.bind, throw, throwThe, MonadExceptOf.throw] at hok
          | false =>
            cases hc : f.createTransaction with
            | true =>
              simp [hf, hc, bind, Except.bind, throw, throwThe, MonadExceptOf.throw, pure,
                Except.pure] at hok
            | false =>
              simp [hf, hc, bind, Except.bind, pure, Except.pure] at hok
              refine ⟨pid, P, rfl, by omega, hfind, by omega, rfl, rfl, ?_, ?_⟩
              · rw [← hok.2]
              · rw [← hok.1, ← hok.2]

theorem fc_sale_run (f : Faults) (shopID : UUID) (req : CreateTransactionRequest)
    (newID : UUID) (now : Time) (s : Store) (pid : UUID) (P : Product)
    (h : req.Type_ = "Sale") (hpid : req.ProductID = some pid) (hq : 0 < req.Quantity)
    (hfind : firstProductOfShop s pid shopID = some P) (hst : req.Quantity ≤ P.Stock)
    (hf : f.updateStock = false) (hc : f.createTransaction = false) :
    CreateTransaction.fc f shopID req newID now s =
      .ok (insertTransaction (updateStock s P.ID (P.Stock - req.Quantity))
            (CreateTransaction.record shopID req newID now),
          CreateTransaction.record shopID req newID now) := by
  unfold CreateTransaction.fc
  have hq1 : ¬ req.Quantity ≤ 0 := by omega
  have hst1 : ¬ P.Stock < req.Quantity := by omega
  simp [h, hpid, hq1, hfind, hst1, hf, hc, bind, Except.bind, pure, Except.pure]

theorem CreateTransaction_cases (f : Faults) (c : Context)
    (body : Option CreateTransactionRequest) (newID : UUID) (now : Time) (s : Store) :
    ((CreateTransaction f c body newID now s).2.status ≠ 201 ∧
        (CreateTransaction f c body newID now s).1 = s) ∨
      ∃ shopID req s1 t, c.shopID = some shopID ∧ body = some req ∧ req.binding = true ∧
        CreateTransaction.fc f shopID req newID now s = .ok (s1, t) ∧ f.commit = false ∧
        CreateTransaction f c body newID now s =
          (s1, ⟨201, .transaction t (t.ProductID.bind (fun pid => firstProductByID s1 pid))⟩) := by
  unfold CreateTransaction GetShopIDFromContext
  cases hc : c.shopID with
  | none => left; simp
  | some shopID =>
    cases body with
    | none => left; simp [ShouldBindJSON]
    | some req =>
      by_cases hb : req.binding = true
      · simp only [ShouldBindJSON, hb, if_true]
        unfold dbTransaction
        cases hfc : CreateTransaction.fc f shopID req newID now s with
        | error e => left; simp
        | ok r =>
          obtain ⟨s1, t⟩ := r
          cases hcm : f.commit with
          | true => left; simp
          | false => right; exact ⟨shopID, req, s1, t, rfl, rfl, hb, hfc, rfl, by simp⟩
      · left; simp [ShouldBindJSON, hb]

theorem CreateTransaction_status (f : Faults) (c : Context) (shopID : UUID)
    (req : CreateTransactionRequest) (newID : UUID) (now : Time) (s : Store)
    (hc : c.shopID = some shopID) :
    (CreateTransaction f c (some req) newID now s).2.status = 201 ∨
      (CreateTransaction f c (some req) newID now s).2.status = 400 := by
  unfold CreateTransaction GetShopIDFromContext
  simp only [hc]
  by_cases hb : req.binding = true
  · simp only [ShouldBindJSON, hb, if_true]
    unfold dbTransaction
    cases hfc : CreateTransaction.fc f shopID req newID now s with
    | error e => right; simp
    | ok r =>
      obtain ⟨s1, t⟩ := r
      cases hcm : f.commit with
      | true => right; simp
      | false => left; simp
  · right; simp [ShouldBindJSON, hb]


/-! ## Stock is never negative -/

theorem updateStock_nonneg (s : Store) (id : UUID) (v : Int) (hv : 0 ≤ v)
    (h : StockNonNeg s) : StockNonNeg (updateStock s id v) := by
  intro p hp
  simp only [updateStock, List.mem_map] at hp
  obtain ⟨q, hq, rfl⟩ := hp
  split
  · exact hv
  · exact h q hq

theorem applyUpdates_stock_nonneg (req : UpdateProductRequest) (p : Product)
    (h : 0 ≤ p.Stock) : 0 ≤ (applyUpdates req p).Stock := by
  unfold applyUpdates
  by_cases hs : req.Stock ≥ 0
  · simp only [hs, if_true]
    split <;> exact hs
  · simp only [hs, if_false]
    split <;> split <;> split <;> split <;> split <;> split <;> exact h

theorem CreateTransaction_stock_nonneg (f : Faults) (c : Context)
    (body : Option CreateTransactionRequest) (newID : UUID) (now : Time) (s : Store)
    (h : StockNonNeg s) : StockNonNeg (CreateTransaction f c body newID now s).1 := by
  rcases CreateTransaction_cases f c body newID now s with ⟨_, hs⟩ | ⟨shopID, req, s1, t, _, _, _, hfc, _, hres⟩
  · rw [hs]; exact h
  · rw [hres]
    by_cases hsale : req.Type_ = "Sale"
    · obtain ⟨pid, P, _, _, _, hst, _, _, _, hs1⟩ := fc_sale_ok f shopID req newID now s s1 t hsale hfc
      rw [hs1]
      exact updateStock_nonneg s P.ID _ (by omega) h
    · rw [fc_not_sale f shopID req newID now s hsale] at hfc
      cases hct : f.createTransaction with
      | true => simp [hct] at hfc
      | false =>
        simp [hct] at hfc
        intro p hp
        rw [← hfc.1] at hp
        exact h p hp

theorem CreateProduct_stock_nonneg (f : Faults) (c : Context)
    (body : Option CreateProductRequest) (newID : UUID) (now : Time) (s : Store)
    (h : StockNonNeg s) : StockNonNeg (CreateProduct f c body newID now s).1 := by
  unfold CreateProduct GetShopIDFromContext
  cases c.shopID with
  | none => exact h
  | some shopID =>
    cases body with
    | none => exact h
    | some req =>
      by_cases hb : req.binding = true
      · simp only [ShouldBindJSON, hb, if_true]
        cases f.createProduct with
        | true => exact h
        | false =>
          intro p hp
          simp only [insertProduct, Bool.false_eq_true, if_false, List.mem_append,
            List.mem_singleton] at hp
          rcases hp with hp | rfl
          · exact h p hp
          · simp only [CreateProductRequest.binding, Bool.and_eq_true, decide_eq_true_eq] at hb
            exact hb.2
      · simp only [ShouldBindJSON, hb]
        exact h

theorem UpdateProduct_stock_nonneg (uuidParse : String → Option UUID) (f : Faults)
    (c : Context) (param : String) (body : Option UpdateProductRequest) (s : Store)
    (h : StockNonNeg s) : StockNonNeg (UpdateProduct uuidParse f c param body s).1 := by
  unfold UpdateProduct GetShopIDFromContext
  cases c.shopID with
  | none => exact h
  | some shopID =>
    simp only
    cases uuidParse param with
    | none => exact h
    | some productID =>
      simp only
      cases firstProductOfShop s productID shopID with
      | none => exact h
      | some product =>
        cases body with
        | none => exact h
        | some req =>
          simp only [ShouldBindJSON, if_true]
          cases f.updateProduct with
          | true => exact h
          | false =>
            intro p hp
            simp only [updateProductRow, Bool.false_eq_true, if_false, List.mem_map] at hp
            obtain ⟨q, hq, rfl⟩ := hp
            split
            · exact applyUpdates_stock_nonneg req q (h q hq)
            · exact h q hq

theorem DeleteProduct_stock_nonneg (uuidParse : String → Option UUID) (f : Faults)
    (c : Context) (param : String) (now : Time) (s : Store)
    (h : StockNonNeg s) : StockNonNeg (DeleteProduct uuidParse f c param now s).1 := by
  have hdel : ∀ id shopID, StockNonNeg (softDeleteProduct s id shopID now) := by
    intro id shopID p hp
    simp only [softDeleteProduct, List.mem_map] at hp
    obtain ⟨q, hq, rfl⟩ := hp
    split <;> exact h q hq
  unfold DeleteProduct GetShopIDFromContext
  cases c.shopID with
  | none => exact h
  | some shopID =>
    simp only
    cases uuidParse param with
    | none => exact h
    | some productID =>
      simp only
      cases f.deleteProduct with
      | true => exact h
      | false =>
        simp only [Bool.false_eq_true, if_false]
        split <;> exact hdel productID shopID

theorem Call_run_stock_nonneg (uuidParse : String → Option UUID) (call : Call) (s : Store)
    (h : StockNonNeg s) : StockNonNeg (call.run uuidParse s).1 := by
  cases call with
  | createProduct f c body newID now => exact CreateProduct_stock_nonneg f c body newID now s h
  | updateProduct f c param body => exact UpdateProduct_stock_nonneg uuidParse f c param body s h
  | deleteProduct f c param now => exact DeleteProduct_stock_nonneg uuidParse f c param now s h
  | createTransaction f c body newID now =>
    exact CreateTransaction_stock_nonneg f c body newID now s h

/-- C1: starting from a store in which every product has stock >= 0, after any finite
sequence of CreateProduct, UpdateProduct, DeleteProduct and CreateTransaction calls, with any
arguments and whether each call succeeds or fails, every product still has stock >= 0. -/
theorem stock_nonneg_invariant (uuidParse : String → Option UUID) (calls : List Call)
    (s : Store) (h : StockNonNeg s) : StockNonNeg (runCalls uuidParse calls s) := by
  induction calls generalizing s with
  | nil => exact h
  | cons call rest ih =>
    simp only [runCalls, List.foldl_cons]
    exact ih _ (Call_run_stock_nonneg uuidParse call s h)


/-! ## Lookups under the primary key -/

theorem eq_of_ID_eq (s : Store) (hu : ProductKeysUnique s) (p q : Product)
    (hp : p ∈ s.products) (hq : q ∈ s.products) (h : p.ID = q.ID) : p = q := by
  by_contra hne
  have hsym : Symmetric (fun a b : Product => a.ID ≠ b.ID) := fun _ _ hab => Ne.symm hab
  exact List.Pairwise.forall hsym hu hp hq hne h

theorem firstProductOfShop_some (s : Store) (id shopID : UUID) (P : Product)
    (h : firstProductOfShop s id shopID = some P) :
    P ∈ s.products ∧ P.ID = id ∧ P.ShopID = shopID ∧ P.DeletedAt = none := by
  unfold firstProductOfShop at h
  have hmem := List.mem_of_find?_eq_some h
  have hp := List.find?_some h
  simp only [Product.live, Bool.and_eq_true, decide_eq_true_eq, Option.isNone_iff_eq_none] at hp
  exact ⟨hmem, hp.1.1, hp.1.2, hp.2⟩

theorem find?_of_mem_unique (l : List Product) (pred : Product → Bool) (P : Product)
    (hu : l.Pairwise (fun a b => a.ID ≠ b.ID)) (hP : P ∈ l) (hpred : pred P = true)
    (hid : ∀ x, pred x = true → x.ID = P.ID) : l.find? pred = some P := by
  induction l with
  | nil => simp at hP
  | cons x xs ih =>
    rw [List.pairwise_cons] at hu
    rcases List.mem_cons.mp hP with rfl | hxs
    · simp [List.find?_cons, hpred]
    · have hx : pred x = false := by
        by_contra hx
        have hx1 : pred x = true := by simpa using hx
        exact hu.1 P hxs (hid x hx1)
      simp only [List.find?_cons, hx]
      exact ih hu.2 hxs

theorem firstProductOfShop_of_mem (s : Store) (hu : ProductKeysUnique s) (P : Product)
    (hP : P ∈ s.products) (hlive : P.DeletedAt = none) :
    firstProductOfShop s P.ID P.ShopID = some P := by
  unfold firstProductOfShop
  apply find?_of_mem_unique s.products _ P hu hP
  · simp [Product.live, hlive]
  · intro x hx
    simp only [Bool.and_eq_true, decide_eq_true_eq] at hx
    exact hx.1.1

theorem firstProductOfShop_foreign (s : Store) (hu : ProductKeysUnique s) (P : Product)
    (hP : P ∈ s.products) (shopID : UUID) (hne : P.ShopID ≠ shopID) :
    firstProductOfShop s P.ID shopID = none := by
  cases h : firstProductOfShop s P.ID shopID with
  | none => rfl
  | some Q =>
    obtain ⟨hQ, hid, hshop, _⟩ := firstProductOfShop_some s P.ID shopID Q h
    have := eq_of_ID_eq s hu Q P hQ hP hid
    subst this
    exact absurd hshop hne

theorem updateStock_products (s : Store) (hu : ProductKeysUnique s) (P : Product)
    (hP : P ∈ s.products) (hlive : P.DeletedAt = none) (v : Int) :
    (updateStock s P.ID v).products =
      s.products.map (fun p => if p = P then { P with Stock := v } else p) := by
  unfold updateStock
  apply List.map_congr_left
  intro p hp
  by_cases hpP : p = P
  · subst hpP
    simp [Product.live, hlive]
  · have hid : p.ID ≠ P.ID := fun hid => hpP (eq_of_ID_eq s hu p P hp hP hid)
    simp [hpP, hid]

/-! ## Sale requests -/

/-- C2: for every tenant, store (with its primary key on `products`) and bound request of
type Sale, with store writes that do not fail, CreateTransaction answers 201 if and only if
product_id is present, quantity > 0, a non-deleted product with that id and the tenant's
shop_id exists and its stock is at least the quantity; in every other case it answers 400. -/
theorem sale_succeeds_iff (c : Context) (shopID : UUID) (req : CreateTransactionRequest)
    (newID : UUID) (now : Time) (s : Store) (hc : c.shopID = some shopID)
    (hb : req.binding = true) (hsale : req.Type_ = "Sale") (hu : ProductKeysUnique s) :
    ((CreateTransaction Faults.none c (some req) newID now s).2.status = 201 ↔
      ∃ pid, req.ProductID = some pid ∧ 0 < req.Quantity ∧
        ∃ P ∈ s.products, P.ID = pid ∧ P.ShopID = shopID ∧ P.DeletedAt = none ∧
          req.Quantity ≤ P.Stock) ∧
    ((CreateTransaction Faults.none c (some req) newID now s).2.status ≠ 201 →
      (CreateTransaction Faults.none c (some req) newID now s).2.status = 400) := by
  refine ⟨⟨fun h => ?_, fun h => ?_⟩, fun h => ?_⟩
  · rcases CreateTransaction_cases Faults.none c (some req) newID now s with
      ⟨hne, _⟩ | ⟨shopID1, req1, s1, t, hc1, hbody, _, hfc, _, _⟩
    · exact absurd h hne
    · rw [hc] at hc1
      cases hc1
      cases hbody
      obtain ⟨pid, P, hpid, hq, hfind, hst, _, _, _, _⟩ :=
        fc_sale_ok Faults.none shopID req newID now s s1 t hsale hfc
      obtain ⟨hmem, hid, hshop, hlive⟩ := firstProductOfShop_some s pid shopID P hfind
      exact ⟨pid, hpid, hq, P, hmem, hid, hshop, hlive, hst⟩
  · obtain ⟨pid, hpid, hq, P, hmem, hid, hshop, hlive, hst⟩ := h
    have hfind : firstProductOfShop s pid shopID = some P := by
      rw [← hid, ← hshop]
      exact firstProductOfShop_of_mem s hu P hmem hlive
    have hfc := fc_sale_run Faults.none shopID req newID now s pid P hsale hpid hq hfind hst
      rfl rfl
    simp only [CreateTransaction, GetShopIDFromContext, hc, ShouldBindJSON, hb, if_true,
      dbTransaction, hfc]
    rfl
  · rcases CreateTransaction_status Faults.none c shopID req newID now s hc with h1 | h1
    · exact absurd h1 h
    · exact h1

/-- C3: for every successful Sale of quantity q on product P by tenant shopID, afterwards
the stock of P is its previous stock minus q, every other product and every other field of
P is unchanged, and the transactions table is the previous one followed by exactly one new
record of type Sale with product_id = P.id, quantity q, the requested amount and
shop_id = shopID; shops and users are untouched. -/
theorem sale_effect (f : Faults) (c : Context) (shopID : UUID)
    (req : CreateTransactionRequest) (newID : UUID) (now : Time) (s : Store)
    (hc : c.shopID = some shopID) (hsale : req.Type_ = "Sale") (hu : ProductKeysUnique s)
    (hok : (CreateTransaction f c (some req) newID now s).2.status = 201) :
    ∃ P ∈ s.products, req.ProductID = some P.ID ∧ P.ShopID = shopID ∧ P.DeletedAt = none ∧
      0 < req.Quantity ∧ req.Quantity ≤ P.Stock ∧
      (CreateTransaction f c (some req) newID now s).1.products =
        s.products.map (fun p => if p = P then { P with Stock := P.Stock - req.Quantity } else p) ∧
      (CreateTransaction f c (some req) newID now s).1.transactions =
        s.transactions ++
          [({ ID := newID, Type_ := "Sale", ProductID := some P.ID,
              Quantity := req.Quantity, Amount := req.Amount, Comment := req.Comment,
              ShopID := shopID, CreatedAt := now } : Transaction)] ∧
      (CreateTransaction f c (some req) newID now s).1.shops = s.shops ∧
      (CreateTransaction f c (some req) newID now s).1.users = s.users := by
  rcases CreateTransaction_cases f c (some req) newID now s with
    ⟨hne, _⟩ | ⟨shopID1, req1, s1, t, hc1, hbody, _, hfc, _, hres⟩
  · exact absurd hok hne
  · rw [hc] at hc1
    cases hc1
    cases hbody
    obtain ⟨pid, P, hpid, hq, hfind, hst, _, _, ht, hs1⟩ :=
      fc_sale_ok f shopID req newID now s s1 t hsale hfc
    obtain ⟨hmem, hid, hshop, hlive⟩ := firstProductOfShop_some s pid shopID P hfind
    subst hid
    refine ⟨P, hmem, hpid, hshop, hlive, hq, hst, ?_, ?_, ?_, ?_⟩
    · rw [hres, hs1]
      exact updateStock_products s hu P hmem hlive _
    · rw [hres, hs1, ht]
      simp [insertTransaction, updateStock, CreateTransaction.record, hsale, hpid]
    · rw [hres, hs1]; rfl
    · rw [hres, hs1]; rfl

/-- C4: whenever CreateTransaction does not answer 201 (for a Sale: missing product_id,
quantity <= 0, product absent or owned by another shop, insufficient stock, a failed stock
write, a failed record insert or a failed commit; and likewise for any other request), the
resulting store is identical to the store before the call. -/
theorem failed_transaction_atomic (f : Faults) (c : Context)
    (body : Option CreateTransactionRequest) (newID : UUID) (now : Time) (s : Store)
    (hfail : (CreateTransaction f c body newID now s).2.status ≠ 201) :
    (CreateTransaction f c body newID now s).1 = s := by
  rcases CreateTransaction_cases f c body newID now s with
    ⟨_, hs⟩ | ⟨_, _, s1, t, _, _, _, _, _, hres⟩
  · exact hs
  · rw [hres] at hfail
    exact absurd rfl hfail

/-- C6: for every CreateTransaction request of type Expense or Withdrawal (with or without
a product_id, any quantity), the products, shops and users tables are unchanged; on success
(201) the transactions table is the previous one followed by exactly one record carrying
the tenant's shopID, and otherwise it is unchanged too. -/
theorem expense_withdrawal_frame (f : Faults) (c : Context) (shopID : UUID)
    (req : CreateTransactionRequest) (newID : UUID) (now : Time) (s : Store)
    (hc : c.shopID = some shopID)
    (ht : req.Type_ = "Expense" ∨ req.Type_ = "Withdrawal") :
    (CreateTransaction f c (some req) newID now s).1.products = s.products ∧
    (CreateTransaction f c (some req) newID now s).1.shops = s.shops ∧
    (CreateTransaction f c (some req) newID now s).1.users = s.users ∧
    ((CreateTransaction f c (some req) newID now s).2.status = 201 →
      (CreateTransaction f c (some req) newID now s).1.transactions =
        s.transactions ++
          [({ ID := newID, Type_ := req.Type_, ProductID := req.ProductID,
              Quantity := req.Quantity, Amount := req.Amount, Comment := req.Comment,
              ShopID := shopID, CreatedAt := now } : Transaction)]) ∧
    ((CreateTransaction f c (some req) newID now s).2.status ≠ 201 →
      (CreateTransaction f c (some req) newID now s).1.transactions = s.transactions) := by
  have hns : req.Type_ ≠ "Sale" := by
    rcases ht with h | h <;> rw [h] <;> decide
  rcases CreateTransaction_cases f c (some req) newID now s with
    ⟨hne, hs⟩ | ⟨shopID1, req1, s1, t, hc1, hbody, _, hfc, _, hres⟩
  · rw [hs]
    exact ⟨rfl, rfl, rfl, fun h => absurd h hne, fun _ => rfl⟩
  · rw [hc] at hc1
    cases hc1
    cases hbody
    rw [fc_not_sale f shopID req newID now s hns] at hfc
    cases hct : f.createTransaction with
    | true => simp [hct] at hfc
    | false =>
      simp [hct] at hfc
      rw [hres, ← hfc.1]
      refine ⟨rfl, rfl, rfl, fun _ => rfl, fun h => absurd rfl h⟩


/-! ## Two Sale requests at once -/

/-- Run alone, the four statements of a Sale request leave the store that the handler
leaves, and reach the commit point exactly when the handler answers 201. -/
theorem solo_run_agrees (c : Context) (shopID : UUID) (req : CreateTransactionRequest)
    (newID : UUID) (now : Time) (s : Store) (other : SaleRun) (hc : c.shopID = some shopID)
    (hb : req.binding = true) (hsale : req.Type_ = "Sale") :
    ((Race.mk s (SaleRun.start shopID req newID now) other).run
        [false, false, false, false]).store =
      (CreateTransaction Faults.none c (some req) newID now s).1 ∧
    (((Race.mk s (SaleRun.start shopID req newID now) other).run
        [false, false, false, false]).first.pc = .committed ↔
      (CreateTransaction Faults.none c (some req) newID now s).2.status = 201) := by
  have hCT : CreateTransaction Faults.none c (some req) newID now s =
      match dbTransaction Faults.none (CreateTransaction.fc Faults.none shopID req newID now) s with
      | (s1, .error e) => (s1, ⟨400, .error e⟩)
      | (s1, .ok transaction) =>
        (s1, ⟨201, .transaction transaction
                (transaction.ProductID.bind (fun pid => firstProductByID s1 pid))⟩) := by
    simp only [CreateTransaction, GetShopIDFromContext, hc, ShouldBindJSON, hb, if_true]
  rw [hCT]
  simp only [Race.run, List.foldl_cons, List.foldl_nil]
  cases hpid : req.ProductID with
  | none =>
    have hfc : CreateTransaction.fc Faults.none shopID req newID now s =
        .error "product_id is required for Sale transactions" := by
      simp [CreateTransaction.fc, hsale, hpid, bind, Except.bind, throw, throwThe,
        MonadExceptOf.throw]
    simp [dbTransaction, hfc, Race.step, SaleRun.step, SaleRun.start, hpid]
  | some pid =>
    by_cases hq : req.Quantity ≤ 0
    · have hfc : CreateTransaction.fc Faults.none shopID req newID now s =
          .error "quantity must be greater than 0 for Sales" := by
        simp [CreateTransaction.fc, hsale, hpid, hq, bind, Except.bind, throw, throwThe,
          MonadExceptOf.throw]
      simp [dbTransaction, hfc, Race.step, SaleRun.step, SaleRun.start, hpid, hq]
    · cases hfind : firstProductOfShop s pid shopID with
      | none =>
        have hfc : CreateTransaction.fc Faults.none shopID req newID now s =
            .error "product not found" := by
          simp [CreateTransaction.fc, hsale, hpid, hq, hfind, bind, Except.bind, throw,
            throwThe, MonadExceptOf.throw]
        simp [dbTransaction, hfc, Race.step, SaleRun.step, SaleRun.start, hpid, hq, hfind]
      | some P =>
        by_cases hst : P.Stock < req.Quantity
        · have hfc : CreateTransaction.fc Faults.none shopID req newID now s =
              .error ("insufficient stock: available " ++
                runeToString (toRune (48 + P.Stock))) := by
            simp [CreateTransaction.fc, hsale, hpid, hq, hfind, hst, bind, Except.bind, throw,
              throwThe, MonadExceptOf.throw]
          simp [dbTransaction, hfc, Race.step, SaleRun.step, SaleRun.start, hpid, hq, hfind,
            hst]
        · have hfc := fc_sale_run Faults.none shopID req newID now s pid P hsale hpid
            (by omega) hfind (by omega) rfl rfl
          simp only [dbTransaction, hfc]
          simp [Race.step, SaleRun.step, SaleRun.start, hpid, hq, hfind, hst, Faults.none]

/-- One request after the other: the first Sale commits, the second is refused for
insufficient stock, one record is inserted and the stock ends at 1. -/
theorem serial_sales_one_commits :
    (sampleRace.run [false, false, false, false, true, true, true, true]).first.pc
      = .committed ∧
    (sampleRace.run [false, false, false, false, true, true, true, true]).second.pc
      = .aborted "insufficient stock: available 1" ∧
    (sampleRace.run [false, false, false, false, true, true, true, true]).store.transactions.map
      (fun t => (t.ID, t.Type_, t.ProductID, t.Quantity)) = [(100, "Sale", some 1, 2)] ∧
    (sampleRace.run [false, false, false, false, true, true, true, true]).store.products.map
      (fun p => (p.ID, p.Stock)) = [(1, 1), (2, 5)] := by
  decide

/-- C5 (the code at the interleaving read, read, check, check, write, insert, write, insert):
with stock 3 and two Sale requests of quantity 2, both requests reach the commit point, two
transaction records are inserted and the stock ends at 1, so four units are sold out of
three. -/
theorem concurrent_sales_both_commit :
    (sampleRace.run [false, true, false, true, false, false, true, true]).first.pc = .committed ∧
    (sampleRace.run [false, true, false, true, false, false, true, true]).second.pc
      = .committed ∧
    (sampleRace.run [false, true, false, true, false, false, true, true]).store.transactions.map
      (fun t => (t.ID, t.Type_, t.ProductID, t.Quantity)) =
        [(100, "Sale", some 1, 2), (101, "Sale", some 1, 2)] ∧
    (sampleRace.run [false, true, false, true, false, false, true, true]).store.products.map
      (fun p => (p.ID, p.Stock)) = [(1, 1), (2, 5)] := by
  decide

/-! ## Tenant isolation of transaction records -/

/-- C7 (the code on an Expense naming another shop's product): the request of shop 10 is
answered 201, the inserted record carries shop_id 10 and product_id 2, product 2 belongs to
shop 20, and the response embeds that product. -/
theorem expense_records_foreign_product :
    CreateTransaction Faults.none sampleContext (some sampleExpense) 100 50 sampleStore =
      ({ sampleStore with
          transactions :=
            [{ ID := 100, Type_ := "Expense", ProductID := some 2, Quantity := 0, Amount := 15,
               Comment := "", ShopID := 10, CreatedAt := 50 }] },
       ⟨201, .transaction
          { ID := 100, Type_ := "Expense", ProductID := some 2, Quantity := 0, Amount := 15,
            Comment := "", ShopID := 10, CreatedAt := 50 }
          (some foreignProduct)⟩) ∧
    foreignProduct ∈ sampleStore.products ∧ foreignProduct.ID = 2 ∧
      foreignProduct.ShopID = 20 := by
  refine ⟨rfl, ?_, rfl, rfl⟩
  exact List.mem_cons_of_mem _ (List.mem_singleton.mpr rfl)


/-! ## Cross-tenant product access -/

theorem no_row_of_foreign (s : Store) (hu : ProductKeysUnique s) (P : Product)
    (hP : P ∈ s.products) (shopID : UUID) (hne : P.ShopID ≠ shopID) :
    ∀ p ∈ s.products, ¬ (p.ID = P.ID ∧ p.ShopID = shopID ∧ p.live = true) := by
  intro p hp h
  have := eq_of_ID_eq s hu p P hp hP h.1
  subst this
  exact hne h.2.1

theorem softDelete_foreign (s : Store) (hu : ProductKeysUnique s) (P : Product)
    (hP : P ∈ s.products) (shopID : UUID) (hne : P.ShopID ≠ shopID) (now : Time) :
    softDeleteProduct s P.ID shopID now = s ∧ softDeleteRowsAffected s P.ID shopID = 0 := by
  have hno := no_row_of_foreign s hu P hP shopID hne
  constructor
  · unfold softDeleteProduct
    have hmap : s.products.map (fun p =>
        if p.ID = P.ID ∧ p.ShopID = shopID ∧ p.live = true then { p with DeletedAt := some now }
        else p) = s.products := by
      conv_rhs => rw [← List.map_id s.products]
      apply List.map_congr_left
      intro p hp
      simp only [if_neg (hno p hp), id]
    rw [hmap]
  · unfold softDeleteRowsAffected
    rw [List.countP_eq_zero]
    intro p hp
    have := hno p hp
    simpa [Bool.and_eq_true, and_assoc] using this

/-- C8: for every product P owned by a shop other than the caller's, GetProduct and
UpdateProduct called with P's id answer 404 "Product not found" and DeleteProduct answers
404 as well whenever the database executes its statement (500 if the database refuses it);
none answers 403 or returns P's data, and the store is left exactly as it was. -/
theorem cross_tenant_not_found (uuidParse : String → Option UUID) (f : Faults) (c : Context)
    (shopID : UUID) (P : Product) (param : String) (body : Option UpdateProductRequest)
    (now : Time) (s : Store) (hu : ProductKeysUnique s) (hP : P ∈ s.products)
    (hc : c.shopID = some shopID) (hne : P.ShopID ≠ shopID)
    (hparam : uuidParse param = some P.ID) :
    GetProduct uuidParse c param s = ⟨404, .error "Product not found"⟩ ∧
    UpdateProduct uuidParse f c param body s = (s, ⟨404, .error "Product not found"⟩) ∧
    DeleteProduct uuidParse f c param now s =
      (s, if f.deleteProduct then ⟨500, .error "Failed to delete product"⟩
          else ⟨404, .error "Product not found"⟩) := by
  have hfind := firstProductOfShop_foreign s hu P hP shopID hne
  obtain ⟨hdel, hrows⟩ := softDelete_foreign s hu P hP shopID hne now
  refine ⟨?_, ?_, ?_⟩
  · simp only [GetProduct, GetShopIDFromContext, hc, hparam, hfind]
  · simp only [UpdateProduct, GetShopIDFromContext, hc, hparam, hfind]
  · simp only [DeleteProduct, GetShopIDFromContext, hc, hparam, hdel, hrows, if_true]
    cases f.deleteProduct <;> rfl


/-! ## The tenant context comes from the token -/

theorem SplitN2_bearer (tokenString : String) :
    SplitN2 ("Bearer " ++ tokenString) = ["Bearer", tokenString] := by
  have h : ("Bearer " ++ tokenString).toList =
      'B' :: 'e' :: 'a' :: 'r' :: 'e' :: 'r' :: ' ' :: tokenString.toList := by
    rw [String.toList, String.data_append]
    rfl
  unfold SplitN2
  rw [h]
  simp [List.span, List.span.loop]

theorem bearer_ne_empty (tokenString : String) : "Bearer " ++ tokenString ≠ "" := by
  intro h
  have := congrArg String.length h
  simp [String.length_append] at this
  have h7 : "Bearer ".length = 7 := by decide
  omega

/-- On a header `Bearer <token>` whose token verifies, `AuthRequired` is its claims tail. -/
theorem AuthRequired_bearer (jwtParse : String → String → Time → Option MapClaims)
    (uuidParse : String → Option UUID) (envSecret : String) (now : Time) (r : Request)
    (tokenString : String) (claims : MapClaims)
    (hhdr : r.Authorization = "Bearer " ++ tokenString)
    (hver : jwtParse tokenString
      (if envSecret = "" then "default-secret-change-in-production" else envSecret) now
        = some claims) :
    AuthRequired jwtParse uuidParse envSecret now r
      = AuthRequired.fromClaims uuidParse claims := by
  unfold AuthRequired
  simp only [hhdr, bearer_ne_empty, if_false, SplitN2_bearer]
  have hfold : EqualFoldBearer "Bearer" = true := by decide
  simp only [hfold, Bool.not_true, Bool.false_eq_true, if_false, hver]

theorem fromClaims_ok (uuidParse : String → Option UUID) (claims : MapClaims) (ctx : Context) :
    AuthRequired.fromClaims uuidParse claims = .ok ctx ↔
      ∃ userID shopID, uuidParse (stringClaim claims "user_id") = some userID ∧
        uuidParse (stringClaim claims "shop_id") = some shopID ∧
        ctx = { userID := some userID, shopID := some shopID,
                role := some (stringClaim claims "role"),
                email := some (stringClaim claims "email") } := by
  unfold AuthRequired.fromClaims
  cases hu : uuidParse (stringClaim claims "user_id") with
  | none => simp [hu]
  | some userID =>
    cases hs : uuidParse (stringClaim claims "shop_id") with
    | none => simp [hu, hs]
    | some shopID =>
      simp only [hu, hs, Except.ok.injEq, Option.some.injEq]
      constructor
      · intro h
        exact ⟨userID, shopID, rfl, rfl, h.symm⟩
      · rintro ⟨u, sh, rfl, rfl, h⟩
        exact h.symm

/-- C9: two requests carrying the same Authorization header, whatever their path
parameters, query strings and bodies, get the same outcome from AuthRequired: both are
rejected with the same response or both continue with the same userID, shopID, role and
email; and whenever a context is stored, its shopID is the UUID parsed from the shop_id
claim of the verified token of the header, which GetShopIDFromContext then returns. -/
theorem tenant_context_from_token_only
    (jwtParse : String → String → Time → Option MapClaims)
    (uuidParse : String → Option UUID) (envSecret : String) (now : Time) (r1 r2 : Request)
    (h : r1.Authorization = r2.Authorization) :
    AuthRequired jwtParse uuidParse envSecret now r1 =
      AuthRequired jwtParse uuidParse envSecret now r2 ∧
    ∀ ctx, AuthRequired jwtParse uuidParse envSecret now r2 = .ok ctx →
      ∃ p0 tokenString claims shopID,
        SplitN2 r1.Authorization = [p0, tokenString] ∧
        jwtParse tokenString
          (if envSecret = "" then "default-secret-change-in-production" else envSecret) now
            = some claims ∧
        uuidParse (stringClaim claims "shop_id") = some shopID ∧
        ctx.shopID = some shopID ∧ GetShopIDFromContext ctx = (shopID, true) := by
  constructor
  · unfold AuthRequired
    rw [h]
  · intro ctx hok
    rw [h]
    unfold AuthRequired at hok
    by_cases hempty : r2.Authorization = ""
    · simp [hempty] at hok
    · simp only [hempty, if_false] at hok
      split at hok
      · rename_i p0 tokenString hsplit
        by_cases hfold : EqualFoldBearer p0 = true
        · simp only [hfold, Bool.not_true, Bool.false_eq_true, if_false] at hok
          split at hok
          · simp at hok
          · rename_i claims hver
            obtain ⟨userID, shopID, _, hshop, hctx⟩ := (fromClaims_ok uuidParse claims ctx).mp hok
            refine ⟨p0, tokenString, claims, shopID, hsplit, hver, hshop, ?_, ?_⟩
            · rw [hctx]
            · rw [hctx]; rfl
        · simp [hfold] at hok
      · simp at hok


theorem stringClaim_of_lookup (claims : MapClaims) (key v : String)
    (h : claims.lookup key = some (.str v)) : stringClaim claims key = v := by
  simp [stringClaim, h]

theorem lookup_of_parse_stringClaim (uuidParse : String → Option UUID)
    (hempty : uuidParse "" = none) (claims : MapClaims) (key : String) (id : UUID)
    (h : uuidParse (stringClaim claims key) = some id) :
    claims.lookup key = some (.str (stringClaim claims key)) := by
  unfold stringClaim at h ⊢
  cases hl : claims.lookup key with
  | none => simp [hl, hempty] at h
  | some v =>
    cases v with
    | str t => rfl
    | num q => simp [hl, hempty] at h
    | bool b => simp [hl, hempty] at h
    | null => simp [hl, hempty] at h
    | other => simp [hl, hempty] at h

theorem fromClaims_status (uuidParse : String → Option UUID) (claims : MapClaims) :
    (∃ ctx, AuthRequired.fromClaims uuidParse claims = .ok ctx) ∨
      ∃ msg, AuthRequired.fromClaims uuidParse claims = .error ⟨401, .error msg⟩ := by
  unfold AuthRequired.fromClaims
  cases hu : uuidParse (stringClaim claims "user_id") with
  | none => right; exact ⟨"Invalid user ID in token", by simp only [hu]⟩
  | some userID =>
    cases hs : uuidParse (stringClaim claims "shop_id") with
    | none => right; exact ⟨"Invalid shop ID in token", by simp only [hu, hs]⟩
    | some shopID =>
      left
      exact ⟨{ userID := some userID, shopID := some shopID,
               role := some (stringClaim claims "role"),
               email := some (stringClaim claims "email") }, by simp only [hu, hs]⟩

/-- C10 (the code on a verified token without a role claim): the token verifies, its claims
hold no role, and AuthRequired lets the request continue with the role set to the empty
string; the same happens for a token whose role claim is a number. -/
theorem missing_role_admitted :
    (∃ claims, sampleJwt "tok-norole" "default-secret-change-in-production" 0 = some claims ∧
      claims.lookup "role" = none) ∧
    AuthRequired sampleJwt sampleParse "" 0
        { Authorization := "Bearer tok-norole", params := [], query := [], body := "" } =
      .ok { userID := some 1, shopID := some 10, role := some "", email := some "" } ∧
    AuthRequired sampleJwt sampleParse "" 0
        { Authorization := "Bearer tok-numrole", params := [], query := [], body := "" } =
      .ok { userID := some 1, shopID := some 10, role := some "", email := some "" } := by
  refine ⟨⟨_, rfl, by decide⟩, by rfl, by rfl⟩

/-- C10 (amended): for every token that passes signature and expiry verification,
AuthRequired admits the request if and only if its claims contain a user_id string that
parses as a UUID and a shop_id string that parses as a UUID, and otherwise aborts with 401;
the role and email claims are not checked: the stored role (email) is the claim when it is a
string and the empty string when it is missing or of another shape. -/
theorem auth_admits_iff (jwtParse : String → String → Time → Option MapClaims)
    (uuidParse : String → Option UUID) (envSecret : String) (now : Time) (r : Request)
    (tokenString : String) (claims : MapClaims) (hempty : uuidParse "" = none)
    (hhdr : r.Authorization = "Bearer " ++ tokenString)
    (hver : jwtParse tokenString
      (if envSecret = "" then "default-secret-change-in-production" else envSecret) now
        = some claims) :
    (∀ ctx, AuthRequired jwtParse uuidParse envSecret now r = .ok ctx ↔
      ∃ u sh userID shopID,
        claims.lookup "user_id" = some (.str u) ∧ uuidParse u = some userID ∧
        claims.lookup "shop_id" = some (.str sh) ∧ uuidParse sh = some shopID ∧
        ctx = { userID := some userID, shopID := some shopID,
                role := some (stringClaim claims "role"),
                email := some (stringClaim claims "email") }) ∧
    ((∃ ctx, AuthRequired jwtParse uuidParse envSecret now r = .ok ctx) ∨
      ∃ msg, AuthRequired jwtParse uuidParse envSecret now r = .error ⟨401, .error msg⟩) := by
  rw [AuthRequired_bearer jwtParse uuidParse envSecret now r tokenString claims hhdr hver]
  refine ⟨fun ctx => ?_, fromClaims_status uuidParse claims⟩
  rw [fromClaims_ok]
  constructor
  · rintro ⟨userID, shopID, hu, hs, hctx⟩
    exact ⟨_, _, userID, shopID,
      lookup_of_parse_stringClaim uuidParse hempty claims "user_id" userID hu, hu,
      lookup_of_parse_stringClaim uuidParse hempty claims "shop_id" shopID hs, hs, hctx⟩
  · rintro ⟨u, sh, userID, shopID, hlu, hu, hls, hs, hctx⟩
    refine ⟨userID, shopID, ?_, ?_, hctx⟩
    · rw [stringClaim_of_lookup claims "user_id" u hlu]; exact hu
    · rw [stringClaim_of_lookup claims "shop_id" sh hls]; exact hs


/-! ## The theorems at the sample data -/

theorem sampleStore_keys : ProductKeysUnique sampleStore := by
  simp [ProductKeysUnique, sampleStore, sampleProduct, foreignProduct]

theorem sampleStore_nonneg : StockNonNeg sampleStore := by
  intro p hp
  simp only [sampleStore, List.mem_cons, List.mem_singleton, List.not_mem_nil, or_false] at hp
  rcases hp with rfl | rfl <;> decide

/-- C1 at the sample store and the sample calls: the initial stocks are non-negative, and
so are the final ones (1 for the sold product, 5 and 8 for the others). -/
theorem stock_nonneg_invariant_witness :
    StockNonNeg sampleStore ∧ StockNonNeg (runCalls sampleParse sampleCalls sampleStore) ∧
      (runCalls sampleParse sampleCalls sampleStore).products.map (fun p => (p.ID, p.Stock))
        = [(1, 1), (2, 5), (3, 8)] :=
  ⟨sampleStore_nonneg,
    stock_nonneg_invariant sampleParse sampleCalls sampleStore sampleStore_nonneg, by decide⟩

/-- C2 at the sample Sale: the request is bound, the keys are unique, and the Sale of two
units out of three is answered 201. -/
theorem sale_succeeds_iff_witness :
    sampleContext.shopID = some 10 ∧ sampleSale.binding = true ∧ sampleSale.Type_ = "Sale" ∧
      ProductKeysUnique sampleStore ∧
      (CreateTransaction Faults.none sampleContext (some sampleSale) 100 50 sampleStore).2.status
        = 201 :=
  ⟨rfl, by rfl, rfl, sampleStore_keys,
    (sale_succeeds_iff sampleContext 10 sampleSale 100 50 sampleStore rfl (by rfl) rfl
        sampleStore_keys).1.mpr
      ⟨1, rfl, by decide, sampleProduct, List.mem_cons_self _ _, rfl, rfl, rfl, by decide⟩⟩

/-- C3 at the sample Sale: the call is answered 201 and has the stated effect. -/
theorem sale_effect_witness :
    sampleContext.shopID = some 10 ∧ sampleSale.Type_ = "Sale" ∧ ProductKeysUnique sampleStore ∧
      (CreateTransaction Faults.none sampleContext (some sampleSale) 100 50 sampleStore).2.status
        = 201 ∧
      ∃ P ∈ sampleStore.products, sampleSale.ProductID = some P.ID ∧ P.ShopID = 10 ∧
        P.DeletedAt = none ∧ 0 < sampleSale.Quantity ∧ sampleSale.Quantity ≤ P.Stock ∧
        (CreateTransaction Faults.none sampleContext (some sampleSale) 100 50 sampleStore).1.products
          = sampleStore.products.map
              (fun p => if p = P then { P with Stock := P.Stock - sampleSale.Quantity } else p) ∧
        (CreateTransaction Faults.none sampleContext (some sampleSale) 100 50
            sampleStore).1.transactions =
          sampleStore.transactions ++
            [({ ID := 100, Type_ := "Sale", ProductID := some P.ID,
                Quantity := sampleSale.Quantity, Amount := sampleSale.Amount,
                Comment := sampleSale.Comment, ShopID := 10, CreatedAt := 50 } : Transaction)] ∧
        (CreateTransaction Faults.none sampleContext (some sampleSale) 100 50 sampleStore).1.shops
          = sampleStore.shops ∧
        (CreateTransaction Faults.none sampleContext (some sampleSale) 100 50 sampleStore).1.users
          = sampleStore.users :=
  ⟨rfl, rfl, sampleStore_keys, by rfl,
    sale_effect Faults.none sampleContext 10 sampleSale 100 50 sampleStore rfl rfl
      sampleStore_keys (by rfl)⟩

/-- C4 at the sample Sale with a database that refuses the record insert after the stock
write: the call is answered 400 and the store is the one before the call. -/
theorem failed_transaction_atomic_witness :
    (CreateTransaction { Faults.none with createTransaction := true } sampleContext
        (some sampleSale) 100 50 sampleStore).2.status ≠ 201 ∧
      (CreateTransaction { Faults.none with createTransaction := true } sampleContext
        (some sampleSale) 100 50 sampleStore).1 = sampleStore :=
  ⟨by decide,
    failed_transaction_atomic { Faults.none with createTransaction := true } sampleContext
      (some sampleSale) 100 50 sampleStore (by decide)⟩

/-- C6 at the sample Expense: products, shops and users are unchanged and the answer is 201
with one record of shop 10 appended. -/
theorem expense_withdrawal_frame_witness :
    sampleContext.shopID = some 10 ∧
      (sampleExpense.Type_ = "Expense" ∨ sampleExpense.Type_ = "Withdrawal") ∧
      (CreateTransaction Faults.none sampleContext (some sampleExpense) 100 50
        sampleStore).1.products = sampleStore.products ∧
      (CreateTransaction Faults.none sampleContext (some sampleExpense) 100 50
        sampleStore).1.transactions =
          [({ ID := 100, Type_ := "Expense", ProductID := some 2, Quantity := 0, Amount := 15,
              Comment := "", ShopID := 10, CreatedAt := 50 } : Transaction)] :=
  ⟨rfl, Or.inl rfl,
    (expense_withdrawal_frame Faults.none sampleContext 10 sampleExpense 100 50 sampleStore rfl
      (Or.inl rfl)).1,
    (expense_withdrawal_frame Faults.none sampleContext 10 sampleExpense 100 50 sampleStore rfl
      (Or.inl rfl)).2.2.2.1 (by rfl)⟩

/-- C8 at the sample store: the Admin of shop 10 asks for product 2 of shop 20. -/
theorem cross_tenant_not_found_witness :
    ProductKeysUnique sampleStore ∧ foreignProduct ∈ sampleStore.products ∧
      sampleContext.shopID = some 10 ∧ foreignProduct.ShopID ≠ 10 ∧
      sampleParse "00000000-0000-0000-0000-000000000002" = some foreignProduct.ID ∧
      GetProduct sampleParse sampleContext "00000000-0000-0000-0000-000000000002" sampleStore
        = ⟨404, .error "Product not found"⟩ ∧
      UpdateProduct sampleParse Faults.none sampleContext
          "00000000-0000-0000-0000-000000000002" none sampleStore
        = (sampleStore, ⟨404, .error "Product not found"⟩) ∧
      DeleteProduct sampleParse Faults.none sampleContext
          "00000000-0000-0000-0000-000000000002" 60 sampleStore
        = (sampleStore,
            if Faults.none.deleteProduct then ⟨500, .error "Failed to delete product"⟩
            else ⟨404, .error "Product not found"⟩) :=
  ⟨sampleStore_keys, List.mem_cons_of_mem _ (List.mem_singleton.mpr rfl), rfl, by decide, by rfl,
    cross_tenant_not_found sampleParse Faults.none sampleContext 10 foreignProduct
      "00000000-0000-0000-0000-000000000002" none 60 sampleStore sampleStore_keys
      (List.mem_cons_of_mem _ (List.mem_singleton.mpr rfl)) rfl (by decide) (by rfl)⟩

/-- C9 at two requests with the same header and different path, query and body. -/
theorem tenant_context_from_token_only_witness :
    AuthRequired sampleJwt sampleParse "" 0
        { Authorization := "Bearer tok-admin", params := [("id", "x")], query := [],
          body := "shop_id=20" } =
      AuthRequired sampleJwt sampleParse "" 0
        { Authorization := "Bearer tok-admin", params := [], query := [("shop_id", "20")],
          body := "" } :=
  (tenant_context_from_token_only sampleJwt sampleParse "" 0
    { Authorization := "Bearer tok-admin", params := [("id", "x")], query := [],
      body := "shop_id=20" }
    { Authorization := "Bearer tok-admin", params := [], query := [("shop_id", "20")],
      body := "" } rfl).1

/-- C10 (amended) at the sample token without a role claim: it is admitted, with role "". -/
theorem auth_admits_iff_witness :
    sampleParse "" = none ∧
      AuthRequired sampleJwt sampleParse "" 0
          { Authorization := "Bearer tok-norole", params := [], query := [], body := "" } =
        .ok { userID := some 1, shopID := some 10, role := some "", email := some "" } :=
  ⟨by rfl,
    ((auth_admits_iff sampleJwt sampleParse "" 0
        { Authorization := "Bearer tok-norole", params := [], query := [], body := "" }
        "tok-norole"
        [("user_id", ClaimValue.str "00000000-0000-0000-0000-000000000001"),
         ("shop_id", ClaimValue.str "00000000-0000-0000-0000-00000000000a"),
         ("exp", ClaimValue.num 1000)]
        (by rfl) (by rfl) (by rfl)).1 _).mpr
      ⟨"00000000-0000-0000-0000-000000000001", "00000000-0000-0000-0000-00000000000a", 1, 10,
        by rfl, by rfl, by rfl, by rfl, by rfl⟩⟩


/-! ## Role checks -/

theorem CheckRole_ok_iff (roles : List String) (c : Context) (r : String)
    (hr : c.role = some r) : CheckRole roles c = .ok () ↔ r ∈ roles := by
  unfold CheckRole
  simp only [hr]
  by_cases h : roles.any (fun x => r == x) = true
  · simp only [h, if_true, true_iff]
    obtain ⟨x, hx, hrx⟩ := List.any_eq_true.mp h
    have : r = x := by simpa using hrx
    rw [this]; exact hx
  · simp only [h]
    constructor
    · intro hcontra; cases hcontra
    · intro hmem
      exact absurd (List.any_eq_true.mpr ⟨r, hmem, by simp⟩) h

theorem guard_superAdmin (g : ApiGroup) (c : Context)
    (hg : g = .shops ∨ g = .users ∨ g = .reports) :
    g.guard c = CheckRole ["SuperAdmin"] c := by
  rcases hg with h | h | h <;> subst h <;>
    simp only [ApiGroup.guard, ApiGroup.checkRoles, List.foldlM, bind, Except.bind] <;>
    cases CheckRole ["SuperAdmin"] c <;> rfl

/-- C11: for every context role string r and every list of required roles, CheckRole lets
the request continue if and only if r equals (case-sensitively) some element of the list,
and otherwise aborts with 403; on the shops, users and reports groups, wired with
CheckRole("SuperAdmin"), the group middleware passes if and only if the role is exactly
"SuperAdmin", and the role "Admin" is refused with 403. -/
theorem checkRole_membership (roles : List String) (c : Context) (r : String)
    (hr : c.role = some r) :
    (CheckRole roles c = .ok () ↔ r ∈ roles) ∧
    (r ∉ roles → ∃ msg, CheckRole roles c = .error ⟨403, .error msg⟩) ∧
    (∀ g : ApiGroup, g = .shops ∨ g = .users ∨ g = .reports →
      (g.guard c = .ok () ↔ r = "SuperAdmin") ∧
      (r = "Admin" → ∃ msg, g.guard c = .error ⟨403, .error msg⟩)) := by
  have hnot : ∀ rs : List String, r ∉ rs →
      ∃ msg, CheckRole rs c = .error ⟨403, .error msg⟩ := by
    intro rs hmem
    have hany : ¬ (rs.any (fun x => r == x) = true) := by
      intro h
      obtain ⟨x, hx, hrx⟩ := List.any_eq_true.mp h
      have : r = x := by simpa using hrx
      exact hmem (this ▸ hx)
    exact ⟨_, by simp only [CheckRole, hr, hany]; rfl⟩
  refine ⟨CheckRole_ok_iff roles c r hr, hnot roles, ?_⟩
  intro g hg
  rw [guard_superAdmin g c hg]
  refine ⟨?_, ?_⟩
  · rw [CheckRole_ok_iff ["SuperAdmin"] c r hr]
    simp
  · intro hadmin
    apply hnot
    rw [hadmin]
    decide

/-- C11 at an Admin context: the Admin passes a check for either role and is refused on the
shops group, which a SuperAdmin passes. -/
theorem checkRole_membership_witness :
    sampleContext.role = some "Admin" ∧
      CheckRole ["SuperAdmin", "Admin"] sampleContext = .ok () ∧
      (∃ msg, ApiGroup.shops.guard sampleContext = .error ⟨403, .error msg⟩) ∧
      ApiGroup.shops.guard { sampleContext with role := some "SuperAdmin" } = .ok () :=
  ⟨rfl,
    (checkRole_membership ["SuperAdmin", "Admin"] sampleContext "Admin" rfl).1.mpr (by decide),
    ((checkRole_membership ["SuperAdmin", "Admin"] sampleContext "Admin" rfl).2.2 .shops
      (Or.inl rfl)).2 rfl,
    by rfl⟩


/-- C12 (the code on a verified token without a role claim): the middleware chain of the
products group and of the transactions group lets the request through with the role "",
GetProduct then answers 200 with the product, and CreateTransaction answers 201 and
changes the store. -/
theorem roleless_token_reaches_handlers :
    apiChain sampleJwt sampleParse "" 0 .products
        { Authorization := "Bearer tok-norole", params := [], query := [], body := "" } =
      .ok { userID := some 1, shopID := some 10, role := some "", email := some "" } ∧
    apiChain sampleJwt sampleParse "" 0 .transactions
        { Authorization := "Bearer tok-norole", params := [], query := [], body := "" } =
      .ok { userID := some 1, shopID := some 10, role := some "", email := some "" } ∧
    GetProduct sampleParse
        { userID := some 1, shopID := some 10, role := some "", email := some "" }
        "00000000-0000-0000-0000-000000000001" sampleStore =
      ⟨200, .product (toPrivateResponse sampleProduct "")⟩ ∧
    (CreateTransaction Faults.none
        { userID := some 1, shopID := some 10, role := some "", email := some "" }
        (some sampleSale) 100 50 sampleStore).2.status = 201 ∧
    (CreateTransaction Faults.none
        { userID := some 1, shopID := some 10, role := some "", email := some "" }
        (some sampleSale) 100 50 sampleStore).1 ≠ sampleStore := by
  refine ⟨by rfl, by rfl, by rfl, by rfl, ?_⟩
  intro h
  have := congrArg (fun s => s.transactions.length) h
  revert this
  decide


/-! ## Registration -/

theorem resolveShop_new (uuidParse : String → Option UUID) (f : Faults) (req : RegisterRequest)
    (newShopID : UUID) (now : Time) (s : Store) (hid : req.ShopID = "")
    (hcond : ¬ (req.Role = "SuperAdmin" ∧ req.ShopName ≠ "" ∧ req.WhatsAppNumber ≠ "")) :
    ∃ msg, Register.resolveShop uuidParse f req newShopID now s = .error ⟨400, .error msg⟩ := by
  unfold Register.resolveShop
  simp only [hid, ne_eq, not_true_eq_false, if_false]
  by_cases h1 : req.ShopName = "" ∨ req.WhatsAppNumber = ""
  · exact ⟨"shop_name and whatsapp_number are required when creating a new shop",
      by simp only [h1, if_true]⟩
  · simp only [h1, if_false]
    have hrole : req.Role ≠ "SuperAdmin" := by
      intro hr
      apply hcond
      refine ⟨hr, ?_, ?_⟩
      · intro h; exact h1 (Or.inl h)
      · intro h; exact h1 (Or.inr h)
    exact ⟨"Only SuperAdmin can create a new shop",
      by simp only [hrole, ne_eq, not_false_eq_true, if_true]⟩

theorem resolveShop_shops (uuidParse : String → Option UUID) (f : Faults)
    (req : RegisterRequest) (newShopID : UUID) (now : Time) (s s1 : Store) (shopID : UUID)
    (hid : req.ShopID = "")
    (h : Register.resolveShop uuidParse f req newShopID now s = .ok (s1, shopID)) :
    req.Role = "SuperAdmin" ∧ req.ShopName ≠ "" ∧ req.WhatsAppNumber ≠ "" ∧
      shopID = newShopID ∧
      s1 = insertShop s
        { ID := newShopID, Name := req.ShopName, Active := true,
          WhatsAppNumber := req.WhatsAppNumber, CreatedAt := now } := by
  by_contra hcontra
  by_cases hcond : req.Role = "SuperAdmin" ∧ req.ShopName ≠ "" ∧ req.WhatsAppNumber ≠ ""
  · unfold Register.resolveShop at h
    have h1 : ¬ (req.ShopName = "" ∨ req.WhatsAppNumber = "") := by
      rintro (h1 | h1)
      · exact hcond.2.1 h1
      · exact hcond.2.2 h1
    simp only [hid, ne_eq, not_true_eq_false, if_false, h1, hcond.1] at h
    cases hf : f.createShop with
    | true => simp [hf] at h
    | false =>
      simp only [hf, Bool.false_eq_true, if_false, Except.ok.injEq, Prod.mk.injEq] at h
      exact hcontra ⟨hcond.1, hcond.2.1, hcond.2.2, h.2.symm, h.1.symm⟩
  · obtain ⟨msg, hmsg⟩ := resolveShop_new uuidParse f req newShopID now s hid hcond
    rw [hmsg] at h
    cases h

/-- C13 (the code on an Admin registration without shop_id whose email is taken): the
request names no shop and has the role Admin, and it is answered 409, not 400. -/
theorem register_taken_email_conflict :
    Register sampleValidEmail sampleParse sampleHash Faults.none
        (some { sampleRegister with Email := "a@shop.test", Role := "Admin" }) 30 31 60
        accountStore =
      (accountStore, ⟨409, .error "Email already registered"⟩) := by
  rfl

/-- C13 (amended): for every Register request with an empty shop_id, a new shop is created
only if role = "SuperAdmin" and shop_name and whatsapp_number are both non-empty; if any of
these conditions fails, neither a shop nor a user is created and the request is rejected:
with 409 when it passes validation and its email is already registered (that check comes
first), and with 400 in every other case. -/
theorem register_new_shop_rules (validEmail : String → Bool)
    (uuidParse : String → Option UUID) (hash : String → Option String) (f : Faults)
    (req : RegisterRequest) (newShopID newUserID : UUID) (now : Time) (s : Store)
    (hid : req.ShopID = "") :
    ((Register validEmail uuidParse hash f (some req) newShopID newUserID now s).1.shops
        ≠ s.shops →
      req.Role = "SuperAdmin" ∧ req.ShopName ≠ "" ∧ req.WhatsAppNumber ≠ "") ∧
    (¬ (req.Role = "SuperAdmin" ∧ req.ShopName ≠ "" ∧ req.WhatsAppNumber ≠ "") →
      (Register validEmail uuidParse hash f (some req) newShopID newUserID now s).1 = s ∧
      (Register validEmail uuidParse hash f (some req) newShopID newUserID now s).2.status =
        if req.binding validEmail = true ∧ (firstUserByEmail s req.Email).isSome = true
        then 409 else 400) := by
  constructor
  · intro hshops
    by_contra hcond
    apply hshops
    unfold Register
    by_cases hb : req.binding validEmail = true
    · simp only [ShouldBindJSON, hb, if_true]
      cases hu : firstUserByEmail s req.Email with
      | some u => rfl
      | none =>
        obtain ⟨msg, hmsg⟩ := resolveShop_new uuidParse f req newShopID now s hid hcond
        simp only [hmsg]
    · simp only [ShouldBindJSON, hb]
      rfl
  · intro hcond
    unfold Register
    by_cases hb : req.binding validEmail = true
    · simp only [ShouldBindJSON, hb, if_true, true_and]
      cases hu : firstUserByEmail s req.Email with
      | some u => simp
      | none =>
        obtain ⟨msg, hmsg⟩ := resolveShop_new uuidParse f req newShopID now s hid hcond
        simp [hmsg]
    · simp [ShouldBindJSON, hb]

/-- C13 (amended) at an Admin registration without shop_id and with a free email: it is
answered 400 and the store is unchanged. -/
theorem register_new_shop_rules_witness :
    ({ sampleRegister with Role := "Admin" } : RegisterRequest).ShopID = "" ∧
      (Register sampleValidEmail sampleParse sampleHash Faults.none
          (some { sampleRegister with Role := "Admin" }) 30 31 60 accountStore).1
        = accountStore ∧
      (Register sampleValidEmail sampleParse sampleHash Faults.none
          (some { sampleRegister with Role := "Admin" }) 30 31 60 accountStore).2.status
        = 400 :=
  ⟨rfl,
    ((register_new_shop_rules sampleValidEmail sampleParse sampleHash Faults.none
        { sampleRegister with Role := "Admin" } 30 31 60 accountStore rfl).2 (by decide)).1,
    (((register_new_shop_rules sampleValidEmail sampleParse sampleHash Faults.none
        { sampleRegister with Role := "Admin" } 30 31 60 accountStore rfl).2
          (by decide)).2).trans (by rfl)⟩


/-! ## Email uniqueness -/

theorem firstUserByEmail_none (s : Store) (email : String)
    (h : firstUserByEmail s email = none) : ∀ u ∈ s.users, u.Email ≠ email := by
  intro u hu
  unfold firstUserByEmail at h
  have := List.find?_eq_none.mp h u hu
  simpa using this

theorem firstUserByEmail_of_mem (s : Store) (u : User) (hu : u ∈ s.users) :
    ∃ v, firstUserByEmail s u.Email = some v := by
  cases h : firstUserByEmail s u.Email with
  | some v => exact ⟨v, rfl⟩
  | none => exact absurd rfl (firstUserByEmail_none s u.Email h u hu)

theorem EmailsUnique_insert (s : Store) (u : User) (h : EmailsUnique s)
    (hfree : firstUserByEmail s u.Email = none) (users : List User)
    (husers : users = s.users ++ [u]) : users.Pairwise (fun a b => a.Email ≠ b.Email) := by
  rw [husers, List.pairwise_append]
  refine ⟨h, List.pairwise_singleton _ _, ?_⟩
  intro a ha b hb
  rw [List.mem_singleton.mp hb]
  exact firstUserByEmail_none s u.Email hfree a ha

theorem Register_users (validEmail : String → Bool) (uuidParse : String → Option UUID)
    (hash : String → Option String) (f : Faults) (body : Option RegisterRequest)
    (newShopID newUserID : UUID) (now : Time) (s : Store) :
    (Register validEmail uuidParse hash f body newShopID newUserID now s).1.users = s.users ∨
      ∃ u, firstUserByEmail s u.Email = none ∧
        (Register validEmail uuidParse hash f body newShopID newUserID now s).1.users
          = s.users ++ [u] := by
  unfold Register
  cases hb : ShouldBindJSON (RegisterRequest.binding validEmail) body with
  | none => left; rfl
  | some req =>
    simp only
    cases hu : firstUserByEmail s req.Email with
    | some u => left; rfl
    | none =>
      simp only
      cases hr : Register.resolveShop uuidParse f req newShopID now s with
      | error resp => left; rfl
      | ok r =>
        obtain ⟨s1, shopID⟩ := r
        have hs1 : s1.users = s.users := by
          unfold Register.resolveShop at hr
          split at hr
          · split at hr
            · cases hr
            · split at hr
              · cases hr
              · simp only [Except.ok.injEq, Prod.mk.injEq] at hr
                rw [← hr.1]
          · split at hr
            · cases hr
            · split at hr
              · cases hr
              · split at hr
                · cases hr
                · simp only [Except.ok.injEq, Prod.mk.injEq] at hr
                  rw [← hr.1]
                  rfl
        simp only
        cases hh : hash req.Password with
        | none => left; exact hs1
        | some hashed =>
          simp only
          cases hf : f.createUser with
          | true => left; simpa using hs1
          | false =>
            right
            refine ⟨{ ID := newUserID, Name := req.Name, Email := req.Email, Password := hashed,
                      Role := req.Role, ShopID := shopID, CreatedAt := now }, hu, ?_⟩
            simp [insertUser, hs1]

theorem CreateUser_users (validEmail : String → Bool) (hash : String → Option String)
    (f : Faults) (c : Context) (body : Option CreateUserRequest) (newUserID : UUID)
    (now : Time) (s : Store) :
    (CreateUser validEmail hash f c body newUserID now s).1.users = s.users ∨
      ∃ u, firstUserByEmail s u.Email = none ∧
        (CreateUser validEmail hash f c body newUserID now s).1.users = s.users ++ [u] := by
  unfold CreateUser GetShopIDFromContext
  cases c.shopID with
  | none => left; rfl
  | some shopID =>
    simp only
    cases hb : ShouldBindJSON (CreateUserRequest.binding validEmail) body with
    | none => left; rfl
    | some req =>
      simp only
      cases hu : firstUserByEmail s req.Email with
      | some u => left; rfl
      | none =>
        simp only
        cases hh : hash req.Password with
        | none => left; rfl
        | some hashed =>
          simp only
          cases hf : f.createUser with
          | true => left; rfl
          | false =>
            right
            refine ⟨{ ID := newUserID, Name := req.Name, Email := req.Email, Password := hashed,
                      Role := req.Role, ShopID := shopID, CreatedAt := now }, hu, ?_⟩
            simp [insertUser]

theorem AccountCall_run_unique (validEmail : String → Bool) (uuidParse : String → Option UUID)
    (hash : String → Option String) (call : AccountCall) (s : Store) (h : EmailsUnique s) :
    EmailsUnique (call.run validEmail uuidParse hash s).1 := by
  cases call with
  | register f body newShopID newUserID now =>
    rcases Register_users validEmail uuidParse hash f body newShopID newUserID now s with
      hsame | ⟨u, hfree, happ⟩
    · simp only [AccountCall.run, EmailsUnique, hsame]; exact h
    · exact EmailsUnique_insert s u h hfree _ happ
  | createUser f c body newUserID now =>
    rcases CreateUser_users validEmail hash f c body newUserID now s with
      hsame | ⟨u, hfree, happ⟩
    · simp only [AccountCall.run, EmailsUnique, hsame]; exact h
    · exact EmailsUnique_insert s u h hfree _ happ

theorem runAccountCalls_unique (validEmail : String → Bool) (uuidParse : String → Option UUID)
    (hash : String → Option String) (calls : List AccountCall) (s : Store)
    (h : EmailsUnique s) : EmailsUnique (runAccountCalls validEmail uuidParse hash calls s) := by
  induction calls generalizing s with
  | nil => exact h
  | cons call rest ih =>
    simp only [runAccountCalls, List.foldl_cons]
    exact ih _ (AccountCall_run_unique validEmail uuidParse hash call s h)

/-- C14: starting from a store with pairwise distinct user emails, after any sequence of
Register and CreateUser calls (any shops, any arguments, failing or not) no two users share
an email; and in every store, a Register or a CreateUser (of an authenticated tenant) whose
request passes validation and whose email is that of an existing user of any shop answers
409 and leaves the store, users and shops included, as it was. -/
theorem email_unique_invariant (validEmail : String → Bool)
    (uuidParse : String → Option UUID) (hash : String → Option String)
    (calls : List AccountCall) (s : Store) (h : EmailsUnique s) :
    EmailsUnique (runAccountCalls validEmail uuidParse hash calls s) ∧
    (∀ (st : Store) (u : User) (f : Faults) (req : RegisterRequest)
        (newShopID newUserID : UUID) (now : Time),
      u ∈ st.users → req.binding validEmail = true → req.Email = u.Email →
      Register validEmail uuidParse hash f (some req) newShopID newUserID now st =
        (st, ⟨409, .error "Email already registered"⟩)) ∧
    (∀ (st : Store) (u : User) (f : Faults) (c : Context) (shopID : UUID)
        (req : CreateUserRequest) (newUserID : UUID) (now : Time),
      u ∈ st.users → c.shopID = some shopID → req.binding validEmail = true →
      req.Email = u.Email →
      CreateUser validEmail hash f c (some req) newUserID now st =
        (st, ⟨409, .error "Email already exists"⟩)) := by
  refine ⟨runAccountCalls_unique validEmail uuidParse hash calls s h, ?_, ?_⟩
  · intro st u f req newShopID newUserID now hu hb he
    obtain ⟨v, hv⟩ := firstUserByEmail_of_mem st u hu
    rw [← he] at hv
    simp only [Register, ShouldBindJSON, hb, if_true, hv]
  · intro st u f c shopID req newUserID now hu hc hb he
    obtain ⟨v, hv⟩ := firstUserByEmail_of_mem st u hu
    rw [← he] at hv
    simp only [CreateUser, GetShopIDFromContext, hc, ShouldBindJSON, hb, if_true, hv]

theorem accountStore_unique : EmailsUnique accountStore := by
  simp [EmailsUnique, accountStore]

/-- C14 at the sample account calls: emails are distinct before and after, three users
exist at the end, and the registration reusing the email of the sample user answers 409. -/
theorem email_unique_invariant_witness :
    EmailsUnique accountStore ∧
      EmailsUnique (runAccountCalls sampleValidEmail sampleParse sampleHash sampleAccountCalls
        accountStore) ∧
      (runAccountCalls sampleValidEmail sampleParse sampleHash sampleAccountCalls
        accountStore).users.map (fun u => u.Email)
          = ["a@shop.test", "b@new.test", "c@shop.test"] ∧
      Register sampleValidEmail sampleParse sampleHash Faults.none
          (some { sampleRegister with Email := "a@shop.test" }) 30 31 60 accountStore =
        (accountStore, ⟨409, .error "Email already registered"⟩) :=
  ⟨accountStore_unique,
    (email_unique_invariant sampleValidEmail sampleParse sampleHash sampleAccountCalls
      accountStore accountStore_unique).1,
    by decide,
    (email_unique_invariant sampleValidEmail sampleParse sampleHash sampleAccountCalls
      accountStore accountStore_unique).2.1 accountStore sampleUser Faults.none
        { sampleRegister with Email := "a@shop.test" } 30 31 60
        (List.mem_singleton.mpr rfl) (by rfl) rfl⟩


/-! ## Register, Login, authenticate -/

theorem firstUserByEmail_insert (s : Store) (u : User)
    (hfree : firstUserByEmail s u.Email = none) :
    firstUserByEmail (insertUser s u) u.Email = some u := by
  unfold firstUserByEmail at hfree ⊢
  simp only [insertUser, List.find?_append, hfree, Option.none_or]
  simp [List.find?_cons]

theorem Register_created (validEmail : String → Bool) (uuidParse : String → Option UUID)
    (hash : String → Option String) (f : Faults) (req : RegisterRequest)
    (newShopID newUserID : UUID) (now : Time) (s : Store)
    (h : (Register validEmail uuidParse hash f (some req) newShopID newUserID now s).2.status
      = 201) :
    ∃ s1 shopID hashed, req.binding validEmail = true ∧ firstUserByEmail s req.Email = none ∧
      Register.resolveShop uuidParse f req newShopID now s = .ok (s1, shopID) ∧
      hash req.Password = some hashed ∧
      (Register validEmail uuidParse hash f (some req) newShopID newUserID now s).1 =
        insertUser s1
          { ID := newUserID, Name := req.Name, Email := req.Email, Password := hashed,
            Role := req.Role, ShopID := shopID, CreatedAt := now } := by
  have h0 := h
  unfold Register at h
  by_cases hb : req.binding validEmail = true
  · simp only [ShouldBindJSON, hb, if_true] at h
    cases hu : firstUserByEmail s req.Email with
    | some u => simp [hu] at h
    | none =>
      simp only [hu] at h
      cases hr : Register.resolveShop uuidParse f req newShopID now s with
      | error resp =>
        exfalso
        simp only [hr] at h
        unfold Register.resolveShop at hr
        split at hr
        · split at hr
          · cases hr; simp at h
          · split at hr
            · cases hr; simp at h
            · cases hr
        · split at hr
          · cases hr; simp at h
          · split at hr
            · cases hr; simp at h
            · split at hr
              · cases hr; simp at h
              · cases hr
      | ok r =>
        obtain ⟨s1, shopID⟩ := r
        simp only [hr] at h
        cases hh : hash req.Password with
        | none => simp [hh] at h
        | some hashed =>
          simp only [hh] at h
          cases hf : f.createUser with
          | true => simp [hf] at h
          | false =>
            refine ⟨s1, shopID, hashed, hb, rfl, rfl, rfl, ?_⟩
            simp [Register, ShouldBindJSON, hb, hu, hr, hh, hf]
  · simp [ShouldBindJSON, hb] at h

theorem fromClaims_tokenClaims (uuidParse : String → Option UUID) (uuidString : UUID → String)
    (now : Time) (userID shopID : UUID) (role email : String)
    (hu : uuidParse (uuidString userID) = some userID)
    (hs : uuidParse (uuidString shopID) = some shopID) :
    AuthRequired.fromClaims uuidParse (tokenClaims uuidString now userID shopID role email) =
      .ok { userID := some userID, shopID := some shopID, role := some role,
            email := some email } := by
  have h1 : stringClaim (tokenClaims uuidString now userID shopID role email) "user_id"
      = uuidString userID := rfl
  have h2 : stringClaim (tokenClaims uuidString now userID shopID role email) "shop_id"
      = uuidString shopID := rfl
  have h3 : stringClaim (tokenClaims uuidString now userID shopID role email) "role"
      = role := rfl
  have h4 : stringClaim (tokenClaims uuidString now userID shopID role email) "email"
      = email := rfl
  unfold AuthRequired.fromClaims
  simp only [h1, h2, h3, h4, hu, hs]

/-- C15: for every successful Register that founds a new shop (201, empty shop_id), the
store holds the new shop under the drawn id; a following Login with the same email and
password answers 200 with the issued token; and AuthRequired on that token (same secret,
verifying at that time) stores the created user's id, the new shop's id, the role
"SuperAdmin" and the email. The libraries enter through three facts: the stored hash
matches its password, signing the new user's claims yields the token, and the token
verifies to those claims; and `UUID.String` is read back by `uuid.Parse` on the two ids. -/
theorem register_login_roundtrip (validEmail : String → Bool)
    (uuidParse : String → Option UUID) (uuidString : UUID → String)
    (hash : String → Option String) (compare : String → String → Bool)
    (jwtSign : MapClaims → String → Option String)
    (jwtParse : String → String → Time → Option MapClaims) (envSecret : String) (f : Faults)
    (req : RegisterRequest) (newShopID newUserID : UUID) (now1 now2 now3 : Time) (s : Store)
    (token : String)
    (hnew : req.ShopID = "")
    (hreg : (Register validEmail uuidParse hash f (some req) newShopID newUserID now1 s).2.status
      = 201)
    (hcmp : ∀ hashed, hash req.Password = some hashed → compare hashed req.Password = true)
    (hsign : jwtSign (tokenClaims uuidString now2 newUserID newShopID "SuperAdmin" req.Email)
        (if envSecret = "" then "default-secret-change-in-production" else envSecret)
      = some token)
    (hverify : jwtParse token
        (if envSecret = "" then "default-secret-change-in-production" else envSecret) now3
      = some (tokenClaims uuidString now2 newUserID newShopID "SuperAdmin" req.Email))
    (huser : uuidParse (uuidString newUserID) = some newUserID)
    (hshop : uuidParse (uuidString newShopID) = some newShopID) :
    (∃ shop ∈ (Register validEmail uuidParse hash f (some req) newShopID newUserID now1 s).1.shops,
      shop.ID = newShopID ∧ shop.Name = req.ShopName) ∧
    Login validEmail compare jwtSign uuidString envSecret
        (some { Email := req.Email, Password := req.Password }) now2
        (Register validEmail uuidParse hash f (some req) newShopID newUserID now1 s).1 =
      ⟨200, .login token
        { ID := newUserID, Name := req.Name, Email := req.Email, Role := "SuperAdmin",
          ShopID := newShopID }⟩ ∧
    ∀ (params query : List (String × String)) (body : String),
      AuthRequired jwtParse uuidParse envSecret now3
          { Authorization := "Bearer " ++ token, params := params, query := query,
            body := body } =
        .ok { userID := some newUserID, shopID := some newShopID, role := some "SuperAdmin",
              email := some req.Email } := by
  obtain ⟨s1, shopID, hashed, hb, hfree, hres, hhash, hstore⟩ :=
    Register_created validEmail uuidParse hash f req newShopID newUserID now1 s hreg
  obtain ⟨hrole, _, _, hsid, hs1⟩ :=
    resolveShop_shops uuidParse f req newShopID now1 s s1 shopID hnew hres
  subst hsid
  have hfree1 : firstUserByEmail s1 req.Email = none := by
    rw [hs1]; exact hfree
  refine ⟨?_, ?_, ?_⟩
  · rw [hstore, hs1]
    refine ⟨{ ID := shopID, Name := req.ShopName, Active := true,
              WhatsAppNumber := req.WhatsAppNumber, CreatedAt := now1 }, ?_, rfl, rfl⟩
    simp [insertUser, insertShop]
  · rw [hstore]
    simp only [RegisterRequest.binding, Bool.and_eq_true, decide_eq_true_eq] at hb
    have hpw : req.Password ≠ "" := by
      intro hp
      have h6 := hb.1.2
      rw [hp] at h6
      simp at h6
    have hlb : LoginRequest.binding validEmail
        { Email := req.Email, Password := req.Password } = true := by
      simp only [LoginRequest.binding, Bool.and_eq_true, decide_eq_true_eq]
      exact ⟨hb.1.1.2, hpw⟩
    have hfind : firstUserByEmail
        (insertUser s1
          { ID := newUserID, Name := req.Name, Email := req.Email, Password := hashed,
            Role := req.Role, ShopID := shopID, CreatedAt := now1 }) req.Email =
        some { ID := newUserID, Name := req.Name, Email := req.Email, Password := hashed,
               Role := req.Role, ShopID := shopID, CreatedAt := now1 } :=
      firstUserByEmail_insert s1
        { ID := newUserID, Name := req.Name, Email := req.Email, Password := hashed,
          Role := req.Role, ShopID := shopID, CreatedAt := now1 } hfree1
    simp only [Login, ShouldBindJSON, hlb, if_true, hfind, hcmp hashed hhash, Bool.not_true,
      Bool.false_eq_true, if_false, generateToken]
    simp only [hrole, hsign]
  · intro params query body
    rw [AuthRequired_bearer jwtParse uuidParse envSecret now3 _ token _ rfl hverify]
    exact fromClaims_tokenClaims uuidParse uuidString now2 newUserID shopID "SuperAdmin"
      req.Email huser hshop

/-- C15 at the sample registration: it founds shop 30 with user 31, the login issues
`tok-founder`, and the middleware reads user 31, shop 30 and the role SuperAdmin back. -/
theorem register_login_roundtrip_witness :
    sampleRegister.ShopID = "" ∧
      (Register sampleValidEmail sampleParseWide sampleHash Faults.none (some sampleRegister)
        30 31 60 accountStore).2.status = 201 ∧
      Login sampleValidEmail sampleCompare sampleSign sampleUUIDString ""
          (some { Email := "b@new.test", Password := "secret2" }) 70
          (Register sampleValidEmail sampleParseWide sampleHash Faults.none
            (some sampleRegister) 30 31 60 accountStore).1 =
        ⟨200, .login "tok-founder"
          { ID := 31, Name := "Badr", Email := "b@new.test", Role := "SuperAdmin",
            ShopID := 30 }⟩ ∧
      AuthRequired sampleVerify sampleParseWide "" 80
          { Authorization := "Bearer " ++ "tok-founder", params := [("shopID", "10")],
            query := [], body := "" } =
        .ok { userID := some 31, shopID := some 30, role := some "SuperAdmin",
              email := some "b@new.test" } :=
  ⟨rfl, by rfl,
    (register_login_roundtrip sampleValidEmail sampleParseWide sampleUUIDString sampleHash
      sampleCompare sampleSign sampleVerify "" Faults.none sampleRegister 30 31 60 70 80
      accountStore "tok-founder" rfl (by rfl)
      (by intro hashed hh; cases hh; rfl) (by rfl) (by rfl) (by rfl) (by rfl)).2.1,
    (register_login_roundtrip sampleValidEmail sampleParseWide sampleUUIDString sampleHash
      sampleCompare sampleSign sampleVerify "" Faults.none sampleRegister 30 31 60 70 80
      accountStore "tok-founder" rfl (by rfl)
      (by intro hashed hh; cases hh; rfl) (by rfl) (by rfl) (by rfl) (by rfl)).2.2
        [("shopID", "10")] [] ""⟩


/-! ## Updates of a product -/

theorem find?_map_update (l : List Product) (hu : l.Pairwise (fun a b => a.ID ≠ b.ID))
    (P : Product) (hP : P ∈ l) (hlive : P.live = true) (g : Product → Product)
    (hgid : (g P).ID = P.ID) (hglive : (g P).live = true) :
    (l.map (fun p => if p.ID = P.ID ∧ p.live = true then g p else p)).find?
        (fun p => decide (p.ID = P.ID) && p.live) = some (g P) := by
  induction l with
  | nil => simp at hP
  | cons x xs ih =>
    rw [List.pairwise_cons] at hu
    rcases List.mem_cons.mp hP with rfl | hxs
    · simp [List.find?_cons, hlive, hgid, hglive]
    · have hx : x.ID ≠ P.ID := hu.1 P hxs
      simp only [List.map_cons, hx, false_and, if_false, List.find?_cons, decide_False,
        Bool.false_and]
      exact ih hu.2 hxs

theorem updateProductRow_products (s : Store) (hu : ProductKeysUnique s) (P : Product)
    (hP : P ∈ s.products) (hlive : P.DeletedAt = none) (req : UpdateProductRequest) :
    (updateProductRow s P.ID req).products =
      s.products.map (fun p => if p = P then applyUpdates req P else p) := by
  unfold updateProductRow
  apply List.map_congr_left
  intro p hp
  by_cases hpP : p = P
  · subst hpP
    simp [Product.live, hlive]
  · have hid : p.ID ≠ P.ID := fun hid => hpP (eq_of_ID_eq s hu p P hp hP hid)
    simp [hpP, hid]

theorem applyUpdates_only_stock (P : Product) (n : Int) (hn : 0 ≤ n) :
    applyUpdates { Name := "", Description := "", Category := "", PurchasePrice := 0,
                   SellingPrice := 0, Stock := n, ImageURL := "" } P = { P with Stock := n } := by
  simp [applyUpdates, hn]

/-- C16: for every product P of the caller's shop and every UpdateProduct request that
supplies only stock = n with n >= 0 (every other field empty or 0), the call answers 200,
the stored row of P has stock n and its name, description, category, purchase_price,
selling_price, image_url, id and shop_id exactly as before, every other row is unchanged,
and the response shows that row. -/
theorem update_only_stock (uuidParse : String → Option UUID) (f : Faults) (c : Context)
    (shopID : UUID) (P : Product) (param : String) (n : Int) (s : Store)
    (hu : ProductKeysUnique s) (hP : P ∈ s.products) (hlive : P.DeletedAt = none)
    (hshop : P.ShopID = shopID) (hc : c.shopID = some shopID)
    (hparam : uuidParse param = some P.ID) (hn : 0 ≤ n) (hf : f.updateProduct = false) :
    UpdateProduct uuidParse f c param
        (some { Name := "", Description := "", Category := "", PurchasePrice := 0,
                SellingPrice := 0, Stock := n, ImageURL := "" }) s =
      ({ s with products := s.products.map (fun p => if p = P then { P with Stock := n } else p) },
        ⟨200, .product (toPrivateResponse { P with Stock := n } (GetRoleFromContext c))⟩) := by
  have hfind : firstProductOfShop s P.ID shopID = some P := by
    rw [← hshop]; exact firstProductOfShop_of_mem s hu P hP hlive
  have hrow := updateProductRow_products s hu P hP hlive
    { Name := "", Description := "", Category := "", PurchasePrice := 0,
      SellingPrice := 0, Stock := n, ImageURL := "" }
  rw [applyUpdates_only_stock P n hn] at hrow
  have hlive1 : P.live = true := by simp [Product.live, hlive]
  have hreload : firstProductByID
      (updateProductRow s P.ID
        { Name := "", Description := "", Category := "", PurchasePrice := 0,
          SellingPrice := 0, Stock := n, ImageURL := "" }) P.ID = some { P with Stock := n } := by
    unfold firstProductByID updateProductRow
    have := find?_map_update s.products hu P hP hlive1
      (applyUpdates { Name := "", Description := "", Category := "", PurchasePrice := 0,
                      SellingPrice := 0, Stock := n, ImageURL := "" })
      (by rw [applyUpdates_only_stock P n hn]) (by rw [applyUpdates_only_stock P n hn]; exact hlive1)
    rw [applyUpdates_only_stock P n hn] at this
    exact this
  have hstore : updateProductRow s P.ID
        { Name := "", Description := "", Category := "", PurchasePrice := 0,
          SellingPrice := 0, Stock := n, ImageURL := "" } =
      { s with products := s.products.map (fun p => if p = P then { P with Stock := n } else p) } := by
    rw [← hrow]; rfl
  rw [hstore] at hreload
  simp only [UpdateProduct, GetShopIDFromContext, hc, hparam, hfind, ShouldBindJSON, if_true, hf,
    Bool.false_eq_true, if_false, hstore, hreload, Option.getD_some]

/-- C16 at the sample product: the Admin of shop 10 sets only the stock to 10. -/
theorem update_only_stock_witness :
    UpdateProduct sampleParse Faults.none sampleContext "00000000-0000-0000-0000-000000000001"
        (some { Name := "", Description := "", Category := "", PurchasePrice := 0,
                SellingPrice := 0, Stock := 10, ImageURL := "" }) sampleStore =
      ({ sampleStore with
          products := sampleStore.products.map
            (fun p => if p = sampleProduct then { sampleProduct with Stock := 10 } else p) },
        ⟨200, .product (toPrivateResponse { sampleProduct with Stock := 10 }
          (GetRoleFromContext sampleContext))⟩) :=
  update_only_stock sampleParse Faults.none sampleContext 10 sampleProduct
    "00000000-0000-0000-0000-000000000001" 10 sampleStore sampleStore_keys
    (List.mem_cons_self _ _) rfl rfl rfl (by rfl) (by decide) rfl

/-- C17 (the code on a request that supplies only a new name): the stock field decodes as
0, the guard `req.Stock >= 0` holds, and the stock of the product drops from 3 to 0 while
its name changes. -/
theorem rename_resets_stock :
    sampleProduct.Stock = 3 ∧
    (UpdateProduct sampleParse Faults.none sampleContext "00000000-0000-0000-0000-000000000001"
        (some { Name := "phone X", Description := "", Category := "", PurchasePrice := 0,
                SellingPrice := 0, Stock := 0, ImageURL := "" }) sampleStore).1.products.map
      (fun p => (p.ID, p.Name, p.Stock)) = [(1, "phone X", 0), (2, "laptop", 5)] ∧
    (UpdateProduct sampleParse Faults.none sampleContext "00000000-0000-0000-0000-000000000001"
        (some { Name := "phone X", Description := "", Category := "", PurchasePrice := 0,
                SellingPrice := 0, Stock := 0, ImageURL := "" }) sampleStore).2.status = 200 := by
  refine ⟨rfl, by decide, by rfl⟩


/-! ## Price projection by role -/

/-- C18 (the code for the role Admin): the response object of the sample product has the
key `purchase_price`, with the value 0. -/
theorem admin_response_keeps_price_key :
    (toPrivateResponse sampleProduct "Admin").jsonFields.map Prod.fst =
      ["id", "name", "description", "category", "purchase_price", "selling_price", "stock",
       "image_url", "shop_id"] ∧
    (toPrivateResponse sampleProduct "Admin").jsonFields.lookup "purchase_price"
      = some (.num 0) := by
  constructor <;> rfl

/-- C18 (amended): for every product p, the response built by toPrivateResponse(p, role)
always has the key purchase_price; its value is p.PurchasePrice for role = "SuperAdmin" and
0 for every other role, so the price is not disclosed; in both cases id, name, description,
category, selling_price, stock, image_url and shop_id equal those of p. -/
theorem private_response_projection (p : Product) (role : String) :
    (toPrivateResponse p role).jsonFields.lookup "purchase_price" =
      some (.num (if role = "SuperAdmin" then p.PurchasePrice else 0)) ∧
    (toPrivateResponse p role).ID = p.ID ∧ (toPrivateResponse p role).Name = p.Name ∧
    (toPrivateResponse p role).Description = p.Description ∧
    (toPrivateResponse p role).Category = p.Category ∧
    (toPrivateResponse p role).SellingPrice = p.SellingPrice ∧
    (toPrivateResponse p role).Stock = p.Stock ∧
    (toPrivateResponse p role).ImageURL = p.ImageURL ∧
    (toPrivateResponse p role).ShopID = p.ShopID := by
  refine ⟨?_, rfl, rfl, rfl, rfl, rfl, rfl, rfl, rfl⟩
  rfl

/-- C19 (the code for an Admin on the transaction paths): the transaction returned by
CreateTransaction embeds the product as stored, whose JSON object carries purchase_price 80;
GetTransactions on the resulting store returns the same embedded product. -/
theorem admin_sees_price_in_transactions :
    sampleContext.role = some "Admin" ∧
    (∃ t p,
      (CreateTransaction Faults.none sampleContext (some sampleSale) 100 50 sampleStore).2 =
        ⟨201, .transaction t (some p)⟩ ∧
      p.jsonFields.lookup "purchase_price" = some (.num 80)) ∧
    (∃ t p,
      GetTransactions (fun _ => none) sampleContext "" "" ""
          (CreateTransaction Faults.none sampleContext (some sampleSale) 100 50 sampleStore).1 =
        ⟨200, .transactions [(t, some p)] 1⟩ ∧
      p.jsonFields.lookup "purchase_price" = some (.num 80)) := by
  refine ⟨rfl, ⟨_, _, rfl, ?_⟩, ⟨_, _, rfl, ?_⟩⟩ <;> rfl

/-! ## Public stock label -/

theorem stockStatus_labels_distinct :
    "Rupture de stock" ≠ "Stock limité" ∧ "Rupture de stock" ≠ "En stock" ∧
      "Stock limité" ≠ "En stock" := by
  decide

theorem GetPublicProducts_labels (uuidParse : String → Option UUID)
    (queryEscape : String → String) (shopIDStr category inStockOnly : String) (s : Store)
    (shopID : UUID) (shopName : String) (items : List PublicProductResponse) (total : Nat)
    (h : GetPublicProducts uuidParse queryEscape shopIDStr category inStockOnly s =
      ⟨200, .publicProducts shopID shopName items total⟩) :
    ∀ e ∈ items, e.StockStatus = stockStatus e.Stock := by
  unfold GetPublicProducts at h
  split at h
  · cases h
  · split at h
    · cases h
    · simp only [Response.mk.injEq, Body.publicProducts.injEq, true_and] at h
      obtain ⟨_, _, hitems, _⟩ := h
      intro e he
      rw [← hitems, List.mem_map] at he
      obtain ⟨p, _, rfl⟩ := he
      rfl

/-- C20: for every stock s >= 0, the label computed in GetPublicProducts is "Rupture de
stock" if and only if s = 0, "Stock limité" if and only if 1 <= s <= 4, and "En stock" if
and only if s >= 5; and every product of a GetPublicProducts response carries the label of
its stock. -/
theorem stock_status_bands (stock : Int) (h : 0 ≤ stock) :
    (stockStatus stock = "Rupture de stock" ↔ stock = 0) ∧
    (stockStatus stock = "Stock limité" ↔ 1 ≤ stock ∧ stock ≤ 4) ∧
    (stockStatus stock = "En stock" ↔ 5 ≤ stock) ∧
    (∀ (uuidParse : String → Option UUID) (queryEscape : String → String)
        (shopIDStr category inStockOnly : String) (s : Store) (shopID : UUID)
        (shopName : String) (items : List PublicProductResponse) (total : Nat),
      GetPublicProducts uuidParse queryEscape shopIDStr category inStockOnly s =
          ⟨200, .publicProducts shopID shopName items total⟩ →
        ∀ e ∈ items, e.StockStatus = stockStatus e.Stock) := by
  obtain ⟨h12, h13, h23⟩ := stockStatus_labels_distinct
  refine ⟨?_, ?_, ?_, ?_⟩
  · unfold stockStatus
    by_cases h0 : stock = 0
    · simp [h0]
    · by_cases h5 : stock < 5
      · simp only [h0, h5, if_false, if_true, iff_false]
        exact fun hc => h12 hc.symm
      · simp only [h0, h5, if_false, iff_false]
        exact fun hc => h13 hc.symm
  · unfold stockStatus
    by_cases h0 : stock = 0
    · simp only [h0, if_true]
      constructor
      · intro hc; exact absurd hc h12
      · intro hc; omega
    · by_cases h5 : stock < 5
      · simp only [h0, h5, if_false, if_true, true_iff]
        omega
      · simp only [h0, h5, if_false]
        constructor
        · intro hc; exact absurd hc.symm h23
        · intro hc; omega
  · unfold stockStatus
    by_cases h0 : stock = 0
    · simp only [h0, if_true]
      constructor
      · intro hc; exact absurd hc h13
      · intro hc; omega
    · by_cases h5 : stock < 5
      · simp only [h0, h5, if_false, if_true]
        constructor
        · intro hc; exact absurd hc h23
        · intro hc; omega
      · simp only [h0, h5, if_false, true_iff]
        omega
  · intro uuidParse queryEscape shopIDStr category inStockOnly s shopID shopName items total hr
    exact GetPublicProducts_labels uuidParse queryEscape shopIDStr category inStockOnly s shopID
      shopName items total hr

/-- C20 at stock 3: the label is "Stock limité", and the storefront of shop 10 shows the
sample product with it. -/
theorem stock_status_bands_witness :
    (0 : Int) ≤ 3 ∧ stockStatus 3 = "Stock limité" ∧
      ∃ link, GetPublicProducts sampleParse (fun text => text)
          "00000000-0000-0000-0000-00000000000a" "" "" accountStore =
        ⟨200, .publicProducts 10 "Atlas"
          [{ ID := 1, Name := "phone", Description := "", Category := "mobile",
             SellingPrice := 100, Stock := 3, StockStatus := "Stock limité", ImageURL := "",
             WhatsAppLink := link }] 1⟩ :=
  ⟨by decide, (stock_status_bands 3 (by decide)).2.1.mpr ⟨by decide, by decide⟩, _, by rfl⟩


/-! ## Date filter of the transaction listing -/

/-- With the same day given as `date_from` and `date_to`, the listing holds exactly the
tenant's transactions from the start of the day to 23:59:59.000 of it, bounds included. -/
theorem GetTransactions_same_day (parseDate : String → Option Time) (c : Context)
    (shopID : UUID) (day : String) (t0 : Time) (s : Store) (hc : c.shopID = some shopID)
    (hday : day ≠ "") (hp : parseDate day = some t0) :
    ∃ items, GetTransactions parseDate c "" day day s
        = ⟨200, .transactions items items.length⟩ ∧
      ∀ t, t ∈ items.map Prod.fst ↔
        t ∈ s.transactions ∧ t.ShopID = shopID ∧ t0 ≤ t.CreatedAt ∧
          t.CreatedAt ≤ t0 + 86399000000000 := by
  refine ⟨(List.insertionSort (fun a b : Transaction => a.CreatedAt ≥ b.CreatedAt)
      (((s.transactions.filter (fun t => decide (t.ShopID = shopID))).filter
          (fun t => decide (t.CreatedAt ≥ t0))).filter
        (fun t => decide (t.CreatedAt ≤ t0 + (24 * 3600 * 1000000000 - 1000000000))))).map
      (fun t => (t, t.ProductID.bind (fun pid => firstProductByID s pid))), ?_, ?_⟩
  · simp only [GetTransactions, GetShopIDFromContext, hc, hday, ne_eq, not_true_eq_false,
      not_false_eq_true, if_true, if_false, hp]
  · intro t
    simp only [List.map_map, List.mem_map, Function.comp]
    constructor
    · rintro ⟨u, hu, rfl⟩
      have hu1 := (List.perm_insertionSort _ _).mem_iff.mp hu
      simp only [List.mem_filter, decide_eq_true_eq, ge_iff_le] at hu1
      obtain ⟨⟨⟨hmem, hshop⟩, hfrom⟩, hto⟩ := hu1
      refine ⟨hmem, hshop, hfrom, ?_⟩
      norm_num at hto
      exact hto
    · rintro ⟨hmem, hshop, hfrom, hto⟩
      refine ⟨t, ?_, rfl⟩
      apply (List.perm_insertionSort _ _).mem_iff.mpr
      simp only [List.mem_filter, decide_eq_true_eq, ge_iff_le]
      refine ⟨⟨⟨hmem, hshop⟩, hfrom⟩, ?_⟩
      norm_num
      exact hto

/-- C21 (the code on a transaction created at 23:59:59.5 of day D, with D given as both
date_from and date_to): the transaction belongs to the tenant and lies on day D, before the
start of day D+1, yet the listing returns only the transaction created at 23:59:59.0. -/
theorem last_second_excluded :
    sampleParseDate "1970-01-01" = some 0 ∧
    sampleParseDate "1970-01-02" = some 86400000000000 ∧
    inLastSecond ∈ datedStore.transactions ∧ inLastSecond.ShopID = 10 ∧
    (0 : Int) ≤ inLastSecond.CreatedAt ∧ inLastSecond.CreatedAt < 86400000000000 ∧
    GetTransactions sampleParseDate sampleContext "" "1970-01-01" "1970-01-01" datedStore =
      ⟨200, .transactions [(onTheSecond, none)] 1⟩ := by
  refine ⟨rfl, rfl, ?_, rfl, by decide, by decide, by rfl⟩
  exact List.mem_cons_of_mem _ (List.mem_singleton.mpr rfl)

/-! ## Registration is not one unit -/

/-- C22 (the code on a registration founding a shop whose later step fails): with a
password that the hasher refuses, and likewise with a user insert that the database
refuses, Register answers 500 and the store keeps the new shop 30 while no user was
added. -/
theorem failed_register_leaves_shop :
    Register sampleValidEmail sampleParse strictHash Faults.none (some longPasswordRegister)
        30 31 60 accountStore =
      ({ accountStore with
          shops := [sampleShop,
            { ID := 30, Name := "Rif", Active := true, WhatsAppNumber := "212611111111",
              CreatedAt := 60 }] },
        ⟨500, .error "Failed to process password"⟩) ∧
    Register sampleValidEmail sampleParse sampleHash { Faults.none with createUser := true }
        (some sampleRegister) 30 31 60 accountStore =
      ({ accountStore with
          shops := [sampleShop,
            { ID := 30, Name := "Rif", Active := true, WhatsAppNumber := "212611111111",
              CreatedAt := 60 }] },
        ⟨500, .error "Failed to create user"⟩) ∧
    (Register sampleValidEmail sampleParse strictHash Faults.none (some longPasswordRegister)
        30 31 60 accountStore).1 ≠ accountStore := by
  refine ⟨by rfl, by rfl, ?_⟩
  intro h
  have := congrArg (fun s => s.shops.length) h
  revert this
  decide

/-! ## Text of the insufficient-stock error -/

/-- For a stock of a single digit the error text ends with that digit. -/
theorem insufficient_stock_digit :
    ∀ n : Fin 10, runeToString (toRune (48 + (n.val : Int))) = toString n.val := by
  decide

/-- C23 (the code on a Sale of 40 units of a product with stock 12): the request is
rejected with the text "insufficient stock: available <", not with "...available 12". -/
theorem insufficient_stock_text_two_digits :
    (CreateTransaction Faults.none sampleContext
        (some { sampleSale with Quantity := 40 }) 100 50
        { sampleStore with products := [{ sampleProduct with Stock := 12 }, foreignProduct] }).2 =
      ⟨400, .error "insufficient stock: available <"⟩ ∧
    "insufficient stock: available <" ≠ "insufficient stock: available " ++ toString (12 : Int) := by
  refine ⟨by rfl, by decide⟩

end ElectronicShop
